import Mathlib

/-
Verification of the Voice4EVs CSMS core (backend/rest_api.py, backend/csms.py,
backend/shared_store.py, backend/config.py, backend/demo_scenarios.py,
backend/complex_demo_scenario.py) against its natural-language specification.

The Python state (the CentralStore singleton, the DemoScenarioManager and the
ComplexDemoScenario singletons) is embedded as explicit Lean structures; the
REST endpoints and protocol handlers become pure state-transition functions.
Python dicts become association lists, Python sets become duplicate-free lists,
timestamps become naturals, and power limits (floats in the source, only ever
compared and stored) become rationals.  WebSocket sends are modelled as always
succeeding and are recorded in an outbound-message list; transport failures
(the `except` branches returning HTTP 500) are out of scope of the claims.
-/

namespace Voice4EVs

/-- Association-list lookup, mirroring Python `d.get(k)` / `d[k]`. -/
def alookup {κ α : Type} [BEq κ] (l : List (κ × α)) (k : κ) : Option α :=
  match l with
  | [] => none
  | p :: rest => if p.1 == k then some p.2 else alookup rest k

/-- Association-list update, mirroring Python `d[k] = v`. -/
def aset {κ α : Type} [BEq κ] (l : List (κ × α)) (k : κ) (v : α) : List (κ × α) :=
  (k, v) :: l.filter (fun p => !(p.1 == k))

/-- Association-list removal, mirroring Python `d.pop(k, None)` / `del d[k]`. -/
def aremove {κ α : Type} [BEq κ] (l : List (κ × α)) (k : κ) : List (κ × α) :=
  l.filter (fun p => !(p.1 == k))

theorem alookup_aremove_self {κ α : Type} [BEq κ] [LawfulBEq κ]
    (l : List (κ × α)) (k : κ) : alookup (aremove l k) k = none := by
  induction l with
  | nil => rfl
  | cons p rest ih =>
    by_cases hp : (p.1 == k) = true
    · simpa [aremove, List.filter_cons, hp] using ih
    · simp only [Bool.not_eq_true] at hp
      simpa [aremove, alookup, List.filter_cons, hp] using ih

theorem alookup_aremove_ne {κ α : Type} [BEq κ] [LawfulBEq κ]
    (l : List (κ × α)) (k k2 : κ) (h : ¬ k = k2) :
    alookup (aremove l k) k2 = alookup l k2 := by
  induction l with
  | nil => rfl
  | cons p rest ih =>
    by_cases hp : (p.1 == k) = true
    · have hp2 : ¬ (p.1 == k2) = true := by
        simp only [beq_iff_eq] at hp ⊢
        rw [hp]; exact h
      simp only [aremove, List.filter_cons, hp, Bool.not_true, Bool.false_eq_true,
        if_false] at *
      rw [ih]
      simp [alookup, hp2]
    · simp only [Bool.not_eq_true] at hp
      simp only [aremove, List.filter_cons, hp, Bool.not_false, if_true] at *
      simp only [alookup]
      by_cases hp2 : (p.1 == k2) = true
      · simp [hp2]
      · simp only [Bool.not_eq_true] at hp2
        simp [hp2, ih]

theorem alookup_aset_self {κ α : Type} [BEq κ] [LawfulBEq κ]
    (l : List (κ × α)) (k : κ) (v : α) : alookup (aset l k v) k = some v := by
  simp [alookup, aset]

theorem alookup_aset_ne {κ α : Type} [BEq κ] [LawfulBEq κ]
    (l : List (κ × α)) (k k2 : κ) (v : α) (h : ¬ k = k2) :
    alookup (aset l k v) k2 = alookup l k2 := by
  have : alookup (aset l k v) k2 = alookup (aremove l k) k2 := by
    simp only [aset, aremove, alookup]
    have : ¬ (k == k2) = true := by simpa using h
    simp [this]
  rw [this, alookup_aremove_ne _ _ _ h]

/-- Keys of an association list. -/
def akeys {κ α : Type} (l : List (κ × α)) : List κ := l.map (fun p => p.1)

theorem akeys_aset_nodup {κ α : Type} [BEq κ] [LawfulBEq κ]
    (l : List (κ × α)) (k : κ) (v : α) (h : (akeys l).Nodup) :
    (akeys (aset l k v)).Nodup := by
  simp only [akeys, aset, List.map_cons, List.nodup_cons]
  refine ⟨?_, ?_⟩
  · intro hmem
    rcases List.mem_map.mp hmem with ⟨p, hp, hpk⟩
    have := List.of_mem_filter hp
    rw [hpk] at this
    simp at this
  · exact List.Nodup.sublist (List.Sublist.map _ (List.filter_sublist l)) h

theorem akeys_aremove_nodup {κ α : Type} [BEq κ] [LawfulBEq κ]
    (l : List (κ × α)) (k : κ) (h : (akeys l).Nodup) :
    (akeys (aremove l k)).Nodup := by
  exact List.Nodup.sublist (List.Sublist.map _ (List.filter_sublist l)) h

/-! ## Configuration (backend/config.py)

Values read from environment variables become fields of `GuardrailConfig`;
`defaultGuardrailConfig` holds the defaults from config.py. -/

structure GuardrailConfig where
  allow_generic_change_config : Bool
  allowed_config_keys : List String
  power_limit_min_kw : Rat
  power_limit_max_kw : Rat
  power_change_rate_limit_window_sec : Nat
  power_change_rate_limit_max : Nat
  config_change_rate_limit_window_sec : Nat
  config_change_rate_limit_max : Nat
  audit_enabled : Bool
deriving DecidableEq, Repr

/-- ALLOWED_CONFIG_KEYS from config.py (a Python set of three strings). -/
def ALLOWED_CONFIG_KEYS : List String :=
  ["ChargingProfileMaxStackLevel",
   "ChargingScheduleMaxPeriods",
   "MaxChargingProfilesInstalled"]

/-- The env-var defaults from config.py. -/
def defaultGuardrailConfig : GuardrailConfig :=
  { allow_generic_change_config := false
    allowed_config_keys := ALLOWED_CONFIG_KEYS
    power_limit_min_kw := 1
    power_limit_max_kw := 22
    power_change_rate_limit_window_sec := 60
    power_change_rate_limit_max := 5
    config_change_rate_limit_window_sec := 60
    config_change_rate_limit_max := 10
    audit_enabled := true }

/-! ## Data model (backend/shared_store.py, demo_scenarios.py,
complex_demo_scenario.py) -/

/-- A StatusNotification record as stored in `STORE.status[cp_id]`. -/
structure StatusRecord where
  connector_id : Nat
  status : String
  error_code : String
deriving DecidableEq, Repr

/-- Structured audit details (the `details` dict of an audit entry). -/
inductive AuditDetails where
  | configChange (key value : String)
  | powerLimit (limit_kw : Rat) (connector_id : Option Nat)
deriving DecidableEq, Repr

/-- One entry of `STORE.audit_log`.  The source renders `ts` as an ISO-8601
string of the wall clock; we keep the numeric instant. -/
structure AuditEntry where
  ts : Nat
  cp_id : String
  actor : String
  action : String
  details : AuditDetails
deriving DecidableEq, Repr

/-- `STORE.power_limits[cp_id]`: a default limit and per-connector overrides. -/
structure PowerLimitEntry where
  default_kw : Option Rat
  per_connector : List (Nat × Rat)
deriving DecidableEq, Repr

/-- The CentralStore singleton of shared_store.py.  `charge_points` maps a
device id to its transport handle (an opaque numeric stand-in for the
websocket object). -/
structure Store where
  charge_points : List (String × Nat)
  status : List (String × StatusRecord)
  heartbeat : List (String × Nat)
  resolved_diagnostics : List String
  diagnostic_config_changes : List (String × List (String × String))
  power_limits : List (String × PowerLimitEntry)
  power_change_events : List (String × List Nat)
  config_change_events : List (String × List Nat)
  audit_log : List AuditEntry
deriving DecidableEq, Repr

/-- One value of `DemoScenarioManager.active_scenarios` (its `type` and
`state` string fields; `started_at` is never read and is omitted). -/
structure DemoScenario where
  type : String
  state : String
deriving DecidableEq, Repr

/-- `ComplexDemoScenario.active_scenario` (the fields read by the code:
`type`, `cp_id`, `steps_completed`; the static `diagnostic_data` and the
`started_at` timestamp are never consulted by any modelled operation). -/
structure ComplexScenarioState where
  type : String
  cp_id : String
  steps_completed : List Nat
deriving DecidableEq, Repr

/-- The whole mutable state of the server process: the CentralStore plus the
DemoScenarioManager state and the ComplexDemoScenario state. -/
structure SysState where
  store : Store
  active_scenarios : List (String × DemoScenario)
  auth_list : List (String × String)
  complex_scenario : Option ComplexScenarioState
deriving DecidableEq, Repr

/-- An outbound OCPP call frame `[2, unique_id, action, payload]`; payload
values are rendered as strings. -/
structure OcppCall where
  unique_id : String
  action : String
  payload : List (String × String)
deriving DecidableEq, Repr

/-- The HTTPException variants raised by rest_api.py, by status code. -/
inductive ApiError where
  | notConnected (cp_id : String)
  | badRequest (detail : String)
  | forbidden (detail : String)
  | rateLimited (detail : String)
deriving DecidableEq, Repr

deriving instance DecidableEq for Except

/-- The result of one REST call: the state after the call (mutations happen
even on some error paths), the OCPP frames sent to the device, and the HTTP
response (success message or structured error). -/
structure Outcome where
  sys : SysState
  sent : List OcppCall
  response : Except ApiError String
deriving DecidableEq, Repr

/-- Is the device connected (`cp_id in STORE.charge_points`)? -/
def connectedDevice (s : SysState) (cp_id : String) : Bool :=
  (alookup s.store.charge_points cp_id).isSome

/-! ## Small state update helpers (field updates on the nested store) -/

def setConfigWindow (s : SysState) (cp : String) (w : List Nat) : SysState :=
  { s with store :=
    { s.store with config_change_events := aset s.store.config_change_events cp w } }

def setPowerWindow (s : SysState) (cp : String) (w : List Nat) : SysState :=
  { s with store :=
    { s.store with power_change_events := aset s.store.power_change_events cp w } }

def setStatusRecord (s : SysState) (cp : String) (r : StatusRecord) : SysState :=
  { s with store := { s.store with status := aset s.store.status cp r } }

def setDiagChanges (s : SysState) (cp : String) (m : List (String × String)) : SysState :=
  { s with store :=
    { s.store with diagnostic_config_changes := aset s.store.diagnostic_config_changes cp m } }

/-- `STORE.resolved_diagnostics.add(cp)`: Python set insertion (idempotent). -/
def addResolved (s : SysState) (cp : String) : SysState :=
  if cp ∈ s.store.resolved_diagnostics then s
  else { s with store :=
    { s.store with resolved_diagnostics := cp :: s.store.resolved_diagnostics } }

def appendAudit (s : SysState) (e : AuditEntry) : SysState :=
  { s with store := { s.store with audit_log := s.store.audit_log ++ [e] } }

def setHeartbeatStore (st : Store) (cp : String) (now : Nat) : Store :=
  { st with heartbeat := aset st.heartbeat cp now }

def setScenario (s : SysState) (cp : String) (sc : DemoScenario) : SysState :=
  { s with active_scenarios := aset s.active_scenarios cp sc }

/-- `DemoScenarioManager.clear_scenario`: delete the entry if present. -/
def clearScenario (s : SysState) (cp : String) : SysState :=
  { s with active_scenarios := aremove s.active_scenarios cp }

/-! ## Rate limiting (rest_api.py lines 190-197 and 256-262)

The prune-then-check-then-append pattern shared by `change_configuration`
and `set_power_limit`. -/

/-- Drop timestamps older than the trailing window:
`[t for t in events if now - t <= WINDOW_SEC]`. -/
def pruneWindow (windowSec now : Nat) (events : List Nat) : List Nat :=
  events.filter (fun t => decide (now - t ≤ windowSec))

/-- One admission check: prune, reject when the pruned count has reached the
maximum (the pruned list is stored either way), append the current timestamp
on admission.  Returns (admitted?, stored window). -/
def rate_gate (windowSec maxCount : Nat) (events : List Nat) (now : Nat) :
    Bool × List Nat :=
  let pruned := pruneWindow windowSec now events
  if maxCount ≤ pruned.length then (false, pruned) else (true, pruned ++ [now])

/-- A whole run of admission checks; returns the final stored window and the
timestamps of the admitted attempts, in order. -/
def rate_run (windowSec maxCount : Nat) :
    List Nat → List Nat → List Nat × List Nat
  | events, [] => (events, [])
  | events, now :: rest =>
    let step := rate_gate windowSec maxCount events now
    let next := rate_run windowSec maxCount step.2 rest
    (next.1, if step.1 then now :: next.2 else next.2)

/-! ## REST endpoints (backend/rest_api.py) -/

/-- The three keys tracked for diagnostic resolution (the literal list at
rest_api.py line 213). -/
def diagnostic_tracked_keys : List String :=
  ["ChargingProfileMaxStackLevel", "ChargingScheduleMaxPeriods",
   "MaxChargingProfilesInstalled"]

/-- The required (key, value) pairs (`required_changes` at lines 222-226). -/
def required_changes : List (String × String) :=
  [("ChargingProfileMaxStackLevel", "1"),
   ("ChargingScheduleMaxPeriods", "100"),
   ("MaxChargingProfilesInstalled", "1")]

/-- The resolution predicate at lines 228-229:
`all(changes.get(key) == value for key, value in required_changes.items())`. -/
def required_check (changes : List (String × String)) : Bool :=
  required_changes.all (fun p => alookup changes p.1 == some p.2)

/-- The diagnostic-resolution tracking block of `change_configuration`
(rest_api.py lines 212-231), run after a successful send. -/
def diag_track (s : SysState) (cp_id key value : String) : SysState :=
  if cp_id = "EVSE003" ∧ key ∈ diagnostic_tracked_keys then
    let changes0 := (alookup s.store.diagnostic_config_changes cp_id).getD []
    let changes1 := aset changes0 key value
    let s2 := setDiagChanges s cp_id changes1
    if required_check changes1 then addResolved s2 cp_id else s2
  else s

/-- The effects of an admitted `change_configuration` after the websocket
send (lines 212-240): diagnostic tracking, then the audit append. -/
def config_admitted_effects (cfg : GuardrailConfig) (s : SysState)
    (cp_id key value : String) (now : Nat) : SysState :=
  let s2 := diag_track s cp_id key value
  if cfg.audit_enabled then
    appendAudit s2 ⟨now, cp_id, "api", "change_configuration",
      .configChange key value⟩
  else s2

/-- POST /commands/change_configuration/cp_id (rest_api.py lines 185-244).
Order of the guards mirrors the source exactly: connectivity (404), then the
rate window (prune, store, 429 or append), then the allowlist (403), then the
send plus diagnostic tracking plus audit.  The single-quote characters of the
Python 403 detail string are omitted. -/
def change_configuration (cfg : GuardrailConfig) (s : SysState)
    (cp_id key value : String) (now : Nat) : Outcome :=
  if ¬ connectedDevice s cp_id then
    ⟨s, [], .error (.notConnected cp_id)⟩
  else
    let window0 := (alookup s.store.config_change_events cp_id).getD []
    let pruned := pruneWindow cfg.config_change_rate_limit_window_sec now window0
    if cfg.config_change_rate_limit_max ≤ pruned.length then
      ⟨setConfigWindow s cp_id pruned, [],
        .error (.rateLimited "Too many configuration changes. Please wait and try again.")⟩
    else
      let s1 := setConfigWindow s cp_id (pruned ++ [now])
      if cfg.allow_generic_change_config = false ∧ key ∉ cfg.allowed_config_keys then
        ⟨s1, [], .error (.forbidden ("Configuration key " ++ key ++ " is not allowed."))⟩
      else
        ⟨config_admitted_effects cfg s1 cp_id key value now,
         [⟨"config_" ++ cp_id, "ChangeConfiguration", [("key", key), ("value", value)]⟩],
         .ok ("ChangeConfiguration command sent to " ++ cp_id)⟩

/-- POST /commands/set_power_limit/cp_id (rest_api.py lines 246-288):
connectivity (404), range check (400), rate window (429 or append), store the
desired limit, audit.  No OCPP frame is built or sent (the source only
acknowledges and audits). -/
def set_power_limit (cfg : GuardrailConfig) (s : SysState) (cp_id : String)
    (limit_kw : Rat) (connector_id : Option Nat) (now : Nat) : Outcome :=
  if ¬ connectedDevice s cp_id then
    ⟨s, [], .error (.notConnected cp_id)⟩
  else if limit_kw < cfg.power_limit_min_kw ∨ cfg.power_limit_max_kw < limit_kw then
    ⟨s, [], .error (.badRequest "limit_kw out of bounds")⟩
  else
    let window0 := (alookup s.store.power_change_events cp_id).getD []
    let pruned := pruneWindow cfg.power_change_rate_limit_window_sec now window0
    if cfg.power_change_rate_limit_max ≤ pruned.length then
      ⟨setPowerWindow s cp_id pruned, [],
        .error (.rateLimited "Too many power limit changes. Please wait and try again.")⟩
    else
      let s1 := setPowerWindow s cp_id (pruned ++ [now])
      let entry0 := (alookup s1.store.power_limits cp_id).getD ⟨none, []⟩
      let entry1 : PowerLimitEntry :=
        match connector_id with
        | some c => { entry0 with per_connector := aset entry0.per_connector c limit_kw }
        | none => { entry0 with default_kw := some limit_kw }
      let s2 : SysState :=
        { s1 with store :=
          { s1.store with power_limits := aset s1.store.power_limits cp_id entry1 } }
      let s3 :=
        if cfg.audit_enabled then
          appendAudit s2 ⟨now, cp_id, "api", "set_power_limit",
            .powerLimit limit_kw connector_id⟩
        else s2
      ⟨s3, [], .ok ("Power limit set for " ++ cp_id)⟩

/-- Does `DEMO_MANAGER.get_scenario_status(cp_id)` report an active
`stuck_charging` scenario? -/
def scenIsStuck (sc : Option DemoScenario) : Bool :=
  match sc with
  | some d => d.type == "stuck_charging"
  | none => false

/-- The status record forced while the stuck_charging scenario is active
(rest_api.py lines 110-114 and 319-323). -/
def stuckStatusRecord : StatusRecord :=
  { connector_id := 1, status := "Charging", error_code := "NoError" }

/-- POST /commands/remote_stop/cp_id (rest_api.py lines 310-340).  While a
stuck_charging scenario is active the stop request is ignored: the status is
forced to Charging and no frame is sent.  The single-quote characters of the
Python message are omitted. -/
def remote_stop_transaction (s : SysState) (cp_id : String)
    (transaction_id : Nat) : Outcome :=
  if ¬ connectedDevice s cp_id then
    ⟨s, [], .error (.notConnected cp_id)⟩
  else if scenIsStuck (alookup s.active_scenarios cp_id) then
    ⟨setStatusRecord s cp_id stuckStatusRecord, [],
      .ok ("RemoteStopTransaction ignored for " ++ cp_id ++
        " due to stuck_charging demo scenario")⟩
  else
    ⟨s, [⟨"stop_" ++ cp_id, "RemoteStopTransaction",
          [("transactionId", toString transaction_id)]⟩],
     .ok ("RemoteStopTransaction command sent to " ++ cp_id)⟩

/-- POST /commands/change_availability/cp_id (rest_api.py lines 161-183).
After the send, an Inoperative request clears an active stuck_charging
scenario as a side effect. -/
def change_availability (s : SysState) (cp_id avail_type : String)
    (connector_id : Option Nat) : Outcome :=
  if ¬ connectedDevice s cp_id then
    ⟨s, [], .error (.notConnected cp_id)⟩
  else
    let payload := [("type", avail_type)] ++
      (match connector_id with
       | some c => [("connectorId", toString c)]
       | none => [])
    let s1 :=
      if scenIsStuck (alookup s.active_scenarios cp_id) ∧ avail_type = "Inoperative"
      then clearScenario s cp_id else s
    ⟨s1, [⟨"availability_" ++ cp_id, "ChangeAvailability", payload⟩],
     .ok ("ChangeAvailability command sent to " ++ cp_id)⟩

/-- POST /commands/reset/cp_id (rest_api.py lines 139-159).  After the send,
a Hard reset clears an active stuck_charging scenario. -/
def reset_charge_point (s : SysState) (cp_id reset_type : String) : Outcome :=
  if ¬ connectedDevice s cp_id then
    ⟨s, [], .error (.notConnected cp_id)⟩
  else
    let s1 :=
      if scenIsStuck (alookup s.active_scenarios cp_id) ∧ reset_type = "Hard"
      then clearScenario s cp_id else s
    ⟨s1, [⟨"reset_" ++ cp_id, "Reset", [("type", reset_type)]⟩],
     .ok ("Reset command sent to " ++ cp_id)⟩

/-- The per-device body of the GET /status loop (rest_api.py lines 90-128):
the only state mutation is forcing the status record of a device whose
active scenario is stuck_charging. -/
def get_status_step (s : SysState) (cp_id : String) : SysState :=
  if scenIsStuck (alookup s.active_scenarios cp_id) then
    setStatusRecord s cp_id stuckStatusRecord
  else s

/-- The state after GET /status has iterated over all connected devices. -/
def get_status_state (s : SysState) : SysState :=
  (akeys s.store.charge_points).foldl get_status_step s

/-- The response payload fields of GET /status used by the claims (the
`status` map is read after the loop's mutations). -/
structure StatusResponse where
  connected_charge_points : List String
  status : List (String × StatusRecord)
  heartbeats : List (String × Nat)
deriving DecidableEq, Repr

/-- GET /status (rest_api.py lines 84-137): run the loop, then report. -/
def get_status (s : SysState) : SysState × StatusResponse :=
  let s2 := get_status_state s
  (s2, ⟨akeys s2.store.charge_points, s2.store.status, s2.store.heartbeat⟩)

/-! ## Demo scenario manager (backend/demo_scenarios.py) -/

/-- `DemoScenarioManager.trigger_scenario` (demo_scenarios.py lines 24-37):
only five scenario names have a branch; any other name (including the two
names offered by the REST trigger endpoint) falls to the else branch, which
logs an error and changes nothing. -/
def demo_trigger_scenario (s : SysState) (scenario_name cp_id : String) : SysState :=
  if scenario_name = "session_start_failure" then
    setScenario s cp_id ⟨"session_start_failure", "authorize_ok_no_start"⟩
  else if scenario_name = "stuck_connector" then
    setScenario s cp_id ⟨"stuck_connector", "occupied_with_lock_failure"⟩
  else if scenario_name = "offline_charger" then
    setScenario s cp_id ⟨"offline_charger", "no_heartbeat"⟩
  else if scenario_name = "auth_failure" then
    setScenario s cp_id ⟨"auth_failure", "invalid_card"⟩
  else if scenario_name = "slow_charging" then
    setScenario s cp_id ⟨"slow_charging", "low_power"⟩
  else s

/-- POST /demo/trigger/scenario (rest_api.py lines 374-398): validate the
scenario name against the two valid names, check connectivity, then delegate
to `DEMO_MANAGER.trigger_scenario`. -/
def trigger_demo_scenario (s : SysState) (scenario cp_id : String) : Outcome :=
  if ¬ (scenario = "charging_profile_mismatch" ∨ scenario = "stuck_charging") then
    ⟨s, [], .error (.badRequest "Invalid scenario.")⟩
  else if ¬ connectedDevice s cp_id then
    ⟨s, [], .error (.notConnected cp_id)⟩
  else
    ⟨demo_trigger_scenario s scenario cp_id, [],
     .ok ("Triggered " ++ scenario ++ " for " ++ cp_id)⟩

/-! ## Complex demo scenario (backend/complex_demo_scenario.py) -/

/-- One entry of `ComplexDemoScenario.get_resolution_steps`. -/
structure ResolutionStep where
  step : Nat
  action : String
  params : List (String × String)
  description : String
  expected_result : String
deriving DecidableEq, Repr

/-- `get_resolution_steps` (complex_demo_scenario.py lines 62-105). -/
def get_resolution_steps : List ResolutionStep :=
  [⟨1, "get_status", [],
    "Check current charger status and power delivery",
    "Confirm low power delivery (3.5kW vs expected 22kW)"⟩,
   ⟨2, "change_configuration", [("key", "ChargingProfileMaxStackLevel"), ("value", "1")],
    "Fix charging profile stack level configuration",
    "Configuration updated successfully"⟩,
   ⟨3, "change_configuration", [("key", "ChargingScheduleMaxPeriods"), ("value", "100")],
    "Fix charging schedule periods configuration",
    "Configuration updated successfully"⟩,
   ⟨4, "change_configuration", [("key", "MaxChargingProfilesInstalled"), ("value", "1")],
    "Fix maximum charging profiles configuration",
    "Configuration updated successfully"⟩,
   ⟨5, "reset_charge_point", [("type", "Soft")],
    "Reset charger to apply new configuration",
    "Charger reset successfully"⟩,
   ⟨6, "get_status", [],
    "Verify power delivery is now at expected level",
    "Power delivery increased to 22kW"⟩]

/-- `ComplexDemoScenario.is_scenario_active` (lines 151-155). -/
def is_scenario_active (s : SysState) (cp_id : String) : Bool :=
  match s.complex_scenario with
  | some cs => cs.cp_id == cp_id && cs.type == "charging_profile_mismatch"
  | none => false

/-- The progress report of `ComplexDemoScenario.get_progress`: either the
not_active marker or the active record with its `completed/total` counts
(the source renders them as the string `f-string completed/total`). -/
inductive Progress where
  | not_active
  | active (completed total : Nat) (completed_steps : List Nat) (next_step : Option Nat)
deriving DecidableEq, Repr

/-- `ComplexDemoScenario.get_progress` (lines 164-178). -/
def complex_get_progress (s : SysState) (cp_id : String) : Progress :=
  if is_scenario_active s cp_id then
    match s.complex_scenario with
    | some cs =>
      let total := get_resolution_steps.length
      let completed := cs.steps_completed.length
      .active completed total cs.steps_completed
        (if completed < total then some (completed + 1) else none)
    | none => .not_active
  else .not_active

/-- GET /demo/progress/cp_id (rest_api.py lines 415-426): connectivity check,
then the complex-scenario progress report. -/
def get_scenario_progress (s : SysState) (cp_id : String) : Except ApiError Progress :=
  if ¬ connectedDevice s cp_id then .error (.notConnected cp_id)
  else .ok (complex_get_progress s cp_id)

/-- POST /demo/reset_diagnostics (rest_api.py lines 451-456): clear the
resolved set and the tracked configuration changes. -/
def reset_diagnostics (s : SysState) : SysState :=
  { s with store :=
    { s.store with resolved_diagnostics := [], diagnostic_config_changes := [] } }

/-! ## CSMS protocol handlers and connection registry (backend/csms.py) -/

/-- The Heartbeat response payload. -/
structure HeartbeatResult where
  current_time : String
deriving DecidableEq, Repr

/-- `on_heartbeat` (csms.py lines 34-39): record the event-loop time in
`STORE.heartbeat[id]` and answer with the literal timestamp string
`2025-01-01T00:00:00Z`. -/
def on_heartbeat (st : Store) (cp_id : String) (now : Nat) :
    Store × HeartbeatResult :=
  (setHeartbeatStore st cp_id now, ⟨"2025-01-01T00:00:00Z"⟩)

/-- A connection-lifecycle event: the registration performed by `on_connect`
(csms.py line 133) or the removal in its `finally` block (line 142).  The
disconnect event carries the transport handle of the task running the
handler; the source ignores it (`STORE.charge_points.pop(cp_id, None)`). -/
inductive ConnEvent where
  | connect (cp_id : String) (transport : Nat)
  | disconnect (cp_id : String) (transport : Nat)
deriving DecidableEq, Repr

/-- One step of the connection registry. -/
def registry_step (r : List (String × Nat)) : ConnEvent → List (String × Nat)
  | .connect cp w => aset r cp w
  | .disconnect cp _ => aremove r cp

/-- The registry after a sequence of connect/disconnect events, starting
from the empty registry of a fresh process. -/
def registry_run (evs : List ConnEvent) : List (String × Nat) :=
  evs.foldl registry_step []

/-! ## Run helpers for sequences of REST calls -/

/-- Run a sequence of `change_configuration` calls for one device, requiring
every call to be admitted (an error outcome aborts the run). -/
def run_config_calls (cfg : GuardrailConfig) (s : SysState) (cp_id : String) :
    List (Nat × String × String) → Option SysState
  | [] => some s
  | (now, key, value) :: rest =>
    let o := change_configuration cfg s cp_id key value now
    match o.response with
    | .ok _ => run_config_calls cfg o.sys cp_id rest
    | .error _ => none

/-- Run a sequence of `change_configuration` calls for arbitrary devices,
keeping the state each call leaves behind whatever its outcome. -/
def run_any_config_calls (cfg : GuardrailConfig) (s : SysState) :
    List (String × String × String × Nat) → SysState
  | [] => s
  | (cp, key, value, now) :: rest =>
    run_any_config_calls cfg (change_configuration cfg s cp key value now).sys rest

/-- An empty CentralStore, as in a fresh process. -/
def emptyStore : Store := ⟨[], [], [], [], [], [], [], [], []⟩

/-- A fresh process state with the given devices connected: empty store
except for the registry, no active scenarios, the initial whitelist of
demo_scenarios.py, no complex scenario. -/
def baseState (cps : List (String × Nat)) : SysState :=
  { store := { emptyStore with charge_points := cps }
    active_scenarios := []
    auth_list := [("USER123", "Accepted"), ("DEMO001", "Accepted")]
    complex_scenario := none }

/-! ## Defining-equation lemmas for the guarded endpoints -/

/-- Shorthand for the stored configuration-change window of a device. -/
def configWindow (s : SysState) (cp : String) : List Nat :=
  (alookup s.store.config_change_events cp).getD []

/-- Shorthand for the stored power-change window of a device. -/
def powerWindow (s : SysState) (cp : String) : List Nat :=
  (alookup s.store.power_change_events cp).getD []

theorem cc_eq_not_connected (cfg : GuardrailConfig) (s : SysState)
    (cp key value : String) (now : Nat) (h : connectedDevice s cp = false) :
    change_configuration cfg s cp key value now = ⟨s, [], .error (.notConnected cp)⟩ := by
  simp [change_configuration, h]

theorem cc_eq_rate_limited (cfg : GuardrailConfig) (s : SysState)
    (cp key value : String) (now : Nat) (hc : connectedDevice s cp = true)
    (hr : cfg.config_change_rate_limit_max ≤
      (pruneWindow cfg.config_change_rate_limit_window_sec now (configWindow s cp)).length) :
    change_configuration cfg s cp key value now =
      ⟨setConfigWindow s cp
        (pruneWindow cfg.config_change_rate_limit_window_sec now (configWindow s cp)), [],
       .error (.rateLimited "Too many configuration changes. Please wait and try again.")⟩ := by
  simp only [configWindow] at hr
  simp [change_configuration, configWindow, hc, hr]

theorem cc_eq_forbidden (cfg : GuardrailConfig) (s : SysState)
    (cp key value : String) (now : Nat) (hc : connectedDevice s cp = true)
    (hr : (pruneWindow cfg.config_change_rate_limit_window_sec now (configWindow s cp)).length <
      cfg.config_change_rate_limit_max)
    (hg : cfg.allow_generic_change_config = false) (hk : key ∉ cfg.allowed_config_keys) :
    change_configuration cfg s cp key value now =
      ⟨setConfigWindow s cp
        (pruneWindow cfg.config_change_rate_limit_window_sec now (configWindow s cp) ++ [now]),
       [], .error (.forbidden ("Configuration key " ++ key ++ " is not allowed."))⟩ := by
  simp only [configWindow] at hr
  simp [change_configuration, configWindow, hc, Nat.not_le.mpr hr, hg, hk]

theorem cc_eq_admitted (cfg : GuardrailConfig) (s : SysState)
    (cp key value : String) (now : Nat) (hc : connectedDevice s cp = true)
    (hr : (pruneWindow cfg.config_change_rate_limit_window_sec now (configWindow s cp)).length <
      cfg.config_change_rate_limit_max)
    (hk : ¬ (cfg.allow_generic_change_config = false ∧ key ∉ cfg.allowed_config_keys)) :
    change_configuration cfg s cp key value now =
      ⟨config_admitted_effects cfg
        (setConfigWindow s cp
          (pruneWindow cfg.config_change_rate_limit_window_sec now (configWindow s cp) ++ [now]))
        cp key value now,
       [⟨"config_" ++ cp, "ChangeConfiguration", [("key", key), ("value", value)]⟩],
       .ok ("ChangeConfiguration command sent to " ++ cp)⟩ := by
  simp only [configWindow] at hr
  simp [change_configuration, configWindow, hc, Nat.not_le.mpr hr, hk]

theorem spl_eq_admitted (cfg : GuardrailConfig) (s : SysState) (cp : String)
    (limit_kw : Rat) (connector_id : Option Nat) (now : Nat)
    (hc : connectedDevice s cp = true)
    (hlim : ¬ (limit_kw < cfg.power_limit_min_kw ∨ cfg.power_limit_max_kw < limit_kw))
    (hr : (pruneWindow cfg.power_change_rate_limit_window_sec now (powerWindow s cp)).length <
      cfg.power_change_rate_limit_max) :
    set_power_limit cfg s cp limit_kw connector_id now =
      (let s1 := setPowerWindow s cp
        (pruneWindow cfg.power_change_rate_limit_window_sec now (powerWindow s cp) ++ [now])
       let entry0 := (alookup s1.store.power_limits cp).getD ⟨none, []⟩
       let entry1 : PowerLimitEntry :=
         match connector_id with
         | some c => { entry0 with per_connector := aset entry0.per_connector c limit_kw }
         | none => { entry0 with default_kw := some limit_kw }
       let s2 : SysState :=
         { s1 with store :=
           { s1.store with power_limits := aset s1.store.power_limits cp entry1 } }
       let s3 :=
         if cfg.audit_enabled then
           appendAudit s2 ⟨now, cp, "api", "set_power_limit",
             .powerLimit limit_kw connector_id⟩
         else s2
       ⟨s3, [], .ok ("Power limit set for " ++ cp)⟩) := by
  simp only [powerWindow] at hr
  simp [set_power_limit, powerWindow, hc, hlim, Nat.not_le.mpr hr]

theorem spl_eq_rate_limited (cfg : GuardrailConfig) (s : SysState) (cp : String)
    (limit_kw : Rat) (connector_id : Option Nat) (now : Nat)
    (hc : connectedDevice s cp = true)
    (hlim : ¬ (limit_kw < cfg.power_limit_min_kw ∨ cfg.power_limit_max_kw < limit_kw))
    (hr : cfg.power_change_rate_limit_max ≤
      (pruneWindow cfg.power_change_rate_limit_window_sec now (powerWindow s cp)).length) :
    set_power_limit cfg s cp limit_kw connector_id now =
      ⟨setPowerWindow s cp
        (pruneWindow cfg.power_change_rate_limit_window_sec now (powerWindow s cp)), [],
       .error (.rateLimited "Too many power limit changes. Please wait and try again.")⟩ := by
  simp only [powerWindow] at hr
  simp [set_power_limit, powerWindow, hc, hlim, hr]

/-! ## Claim C3: connection-registry disconnect semantics -/

theorem registry_step_keys_nodup (r : List (String × Nat)) (e : ConnEvent)
    (h : (akeys r).Nodup) : (akeys (registry_step r e)).Nodup := by
  cases e with
  | connect cp w => exact akeys_aset_nodup r cp w h
  | disconnect cp w => exact akeys_aremove_nodup r cp h

theorem registry_foldl_keys_nodup (evs : List ConnEvent) :
    ∀ r : List (String × Nat), (akeys r).Nodup → (akeys (evs.foldl registry_step r)).Nodup := by
  induction evs with
  | nil => intro r h; exact h
  | cons e rest ih =>
    intro r h
    exact ih (registry_step r e) (registry_step_keys_nodup r e h)

/-- Claim C3, counterexample: the source's disconnect path
(`STORE.charge_points.pop(cp_id, None)` in the finally block of `on_connect`)
removes the registry entry unconditionally.  After device EVSE001 connects
with transport 1, reconnects with transport 2, and the stale handler owning
transport 1 then runs its disconnect, the registry holds no entry for the
device — although the claim requires the (mismatched) removal to be skipped,
leaving the newest connection registered. -/
theorem claim_C3_counterexample :
    alookup (registry_run [.connect "EVSE001" 1, .connect "EVSE001" 2]) "EVSE001" = some 2 ∧
    alookup (registry_run
      [.connect "EVSE001" 1, .connect "EVSE001" 2, .disconnect "EVSE001" 1]) "EVSE001" = none ∧
    ¬ alookup (registry_run
      [.connect "EVSE001" 1, .connect "EVSE001" 2, .disconnect "EVSE001" 1]) "EVSE001" = some 2 := by
  refine ⟨by decide, by decide, by decide⟩

/-- Claim C3 (amended): the disconnect path removes the device's entry
unconditionally, regardless of whether the disconnecting transport matches
the registered one; a connect always registers its own transport (newest
wins); and after any event sequence from an empty registry each device has
at most one entry. -/
theorem claim_C3_amended :
    (∀ (r : List (String × Nat)) (cp : String) (w : Nat),
      alookup (registry_step r (.disconnect cp w)) cp = none) ∧
    (∀ (r : List (String × Nat)) (cp : String) (w : Nat),
      alookup (registry_step r (.connect cp w)) cp = some w) ∧
    (∀ evs : List ConnEvent, (akeys (registry_run evs)).Nodup) := by
  refine ⟨?_, ?_, ?_⟩
  · intro r cp w
    exact alookup_aremove_self r cp
  · intro r cp w
    exact alookup_aset_self r cp w
  · intro evs
    exact registry_foldl_keys_nodup evs [] (by simp [akeys])

/-! ## Claim C9: the Heartbeat handler -/

/-- Claim C9, counterexample: the handler does not return the current time;
it answers with the literal placeholder `2025-01-01T00:00:00Z` whatever the
call time is — two calls at different times get identical payloads. -/
theorem claim_C9_counterexample :
    (on_heartbeat emptyStore "EVSE001" 5).2.current_time = "2025-01-01T00:00:00Z" ∧
    (on_heartbeat emptyStore "EVSE001" 5).2 =
      (on_heartbeat emptyStore "EVSE001" 987654).2 := by
  exact ⟨rfl, rfl⟩

/-- Claim C9 (amended): for every inbound Heartbeat the handler records the
current event-loop time in the device's HeartbeatRecord, leaves every other
store field unchanged, and answers with the fixed placeholder timestamp
string rather than the current time. -/
theorem claim_C9_amended (st : Store) (cp_id : String) (now : Nat) :
    alookup (on_heartbeat st cp_id now).1.heartbeat cp_id = some now ∧
    (on_heartbeat st cp_id now).1.heartbeat = aset st.heartbeat cp_id now ∧
    (on_heartbeat st cp_id now).2 = ⟨"2025-01-01T00:00:00Z"⟩ ∧
    (on_heartbeat st cp_id now).1.status = st.status ∧
    (on_heartbeat st cp_id now).1.charge_points = st.charge_points ∧
    (on_heartbeat st cp_id now).1.resolved_diagnostics = st.resolved_diagnostics ∧
    (on_heartbeat st cp_id now).1.audit_log = st.audit_log := by
  refine ⟨?_, rfl, rfl, rfl, rfl, rfl, rfl⟩
  exact alookup_aset_self st.heartbeat cp_id now

/-! ## Claim C7: allowlist enforcement -/

/-- Claim C7: when generic configuration changes are disabled, a
setConfiguration call on a connected device whose key is outside the fixed
allowed set is rejected with the permission (403) error, whatever the value
supplied, whenever it reaches the allowlist check (i.e. the rate check that
the source runs first admits it); no frame is sent to the device. -/
theorem claim_C7_allowlist (cfg : GuardrailConfig) (s : SysState)
    (cp_id key value : String) (now : Nat)
    (hg : cfg.allow_generic_change_config = false)
    (hc : connectedDevice s cp_id = true)
    (hk : key ∉ cfg.allowed_config_keys)
    (hr : (pruneWindow cfg.config_change_rate_limit_window_sec now
      (configWindow s cp_id)).length < cfg.config_change_rate_limit_max) :
    (change_configuration cfg s cp_id key value now).response =
      .error (.forbidden ("Configuration key " ++ key ++ " is not allowed.")) ∧
    (change_configuration cfg s cp_id key value now).sent = [] := by
  rw [cc_eq_forbidden cfg s cp_id key value now hc hr hg hk]
  exact ⟨rfl, rfl⟩

/-- Witness for C7 at a concrete input: device EVSE001 connected, fresh
windows, key HeartbeatInterval outside the allowed set. -/
theorem claim_C7_allowlist_witness :
    (change_configuration defaultGuardrailConfig (baseState [("EVSE001", 1)])
      "EVSE001" "HeartbeatInterval" "30" 0).response =
      .error (.forbidden ("Configuration key " ++ "HeartbeatInterval" ++ " is not allowed.")) ∧
    (change_configuration defaultGuardrailConfig (baseState [("EVSE001", 1)])
      "EVSE001" "HeartbeatInterval" "30" 0).sent = [] :=
  claim_C7_allowlist defaultGuardrailConfig (baseState [("EVSE001", 1)])
    "EVSE001" "HeartbeatInterval" "30" 0 rfl (by decide) (by decide) (by decide)

/-! ## Claim C2: allowlist rejection and the rate window -/

/-- Claim C2, counterexample: an allowlist-rejected setConfiguration does NOT
leave the configuration-change RateWindow unchanged.  Device EVSE001 is
connected with an empty window; the call with the disallowed key
WebSocketPingInterval at time 5 is rejected with the 403 permission error,
yet the stored window now holds the timestamp 5 — the source appends the
timestamp during the rate check, before the allowlist check runs. -/
theorem claim_C2_counterexample :
    (change_configuration defaultGuardrailConfig (baseState [("EVSE001", 1)])
      "EVSE001" "WebSocketPingInterval" "10" 5).response =
      .error (.forbidden ("Configuration key " ++ "WebSocketPingInterval" ++ " is not allowed.")) ∧
    alookup (change_configuration defaultGuardrailConfig (baseState [("EVSE001", 1)])
      "EVSE001" "WebSocketPingInterval" "10" 5).sys.store.config_change_events "EVSE001" =
      some [5] ∧
    alookup (baseState [("EVSE001", 1)]).store.config_change_events "EVSE001" = none := by
  refine ⟨by decide, by decide, by decide⟩

/-- Claim C2 (amended): a rejection by the allowlist check means the command
is not admitted (no frame is sent, the 403 error is returned, and neither
the diagnostic tracking nor the audit log runs), but the configuration-change
RateWindow is NOT left unchanged: the rate check runs first, so the window is
pruned and the current timestamp appended whenever the rate check itself
passes, even though the allowlist check subsequently rejects the command. -/
theorem claim_C2_amended (cfg : GuardrailConfig) (s : SysState)
    (cp_id key value : String) (now : Nat)
    (hg : cfg.allow_generic_change_config = false)
    (hc : connectedDevice s cp_id = true)
    (hk : key ∉ cfg.allowed_config_keys)
    (hr : (pruneWindow cfg.config_change_rate_limit_window_sec now
      (configWindow s cp_id)).length < cfg.config_change_rate_limit_max) :
    (change_configuration cfg s cp_id key value now).sent = [] ∧
    (change_configuration cfg s cp_id key value now).response =
      .error (.forbidden ("Configuration key " ++ key ++ " is not allowed.")) ∧
    (change_configuration cfg s cp_id key value now).sys =
      setConfigWindow s cp_id
        (pruneWindow cfg.config_change_rate_limit_window_sec now (configWindow s cp_id) ++ [now]) ∧
    alookup (change_configuration cfg s cp_id key value now).sys.store.config_change_events cp_id =
      some (pruneWindow cfg.config_change_rate_limit_window_sec now (configWindow s cp_id) ++ [now]) := by
  rw [cc_eq_forbidden cfg s cp_id key value now hc hr hg hk]
  refine ⟨rfl, rfl, rfl, ?_⟩
  exact alookup_aset_self _ _ _

/-- Witness for the amended C2 at a concrete input. -/
theorem claim_C2_amended_witness :
    (change_configuration defaultGuardrailConfig (baseState [("EVSE002", 2)])
      "EVSE002" "MeterValueSampleInterval" "60" 7).sent = [] ∧
    (change_configuration defaultGuardrailConfig (baseState [("EVSE002", 2)])
      "EVSE002" "MeterValueSampleInterval" "60" 7).response =
      .error (.forbidden ("Configuration key " ++ "MeterValueSampleInterval" ++ " is not allowed.")) ∧
    (change_configuration defaultGuardrailConfig (baseState [("EVSE002", 2)])
      "EVSE002" "MeterValueSampleInterval" "60" 7).sys =
      setConfigWindow (baseState [("EVSE002", 2)]) "EVSE002"
        (pruneWindow defaultGuardrailConfig.config_change_rate_limit_window_sec 7
          (configWindow (baseState [("EVSE002", 2)]) "EVSE002") ++ [7]) ∧
    alookup (change_configuration defaultGuardrailConfig (baseState [("EVSE002", 2)])
      "EVSE002" "MeterValueSampleInterval" "60" 7).sys.store.config_change_events "EVSE002" =
      some (pruneWindow defaultGuardrailConfig.config_change_rate_limit_window_sec 7
        (configWindow (baseState [("EVSE002", 2)]) "EVSE002") ++ [7]) :=
  claim_C2_amended defaultGuardrailConfig (baseState [("EVSE002", 2)])
    "EVSE002" "MeterValueSampleInterval" "60" 7 rfl (by decide) (by decide) (by decide)

/-! ## Claim C4: admitted setPowerLimit sends nothing -/

/-- Claim C4, counterexample: an admitted setPowerLimit (connected device,
in-range limit, fresh rate window) succeeds but sends NO framed command
toward the device: the outbound message list is empty, refuting the claimed
pass-through to the Message Correlator. -/
theorem claim_C4_counterexample :
    (set_power_limit defaultGuardrailConfig (baseState [("EVSE002", 3)])
      "EVSE002" 10 none 0).response = .ok ("Power limit set for " ++ "EVSE002") ∧
    (set_power_limit defaultGuardrailConfig (baseState [("EVSE002", 3)])
      "EVSE002" 10 none 0).sent = [] := by
  refine ⟨by decide, by decide⟩

/-- Claim C4 (amended): an admitted setPowerLimit call (range and rate checks
passed) acknowledges success, records the desired limit in the Device State
Store, and appends an Audit Log entry (when auditing is enabled), but sends
no framed command toward the device; it never mutates protocol state
(status, heartbeat, registry, scenario state, resolution state are all
unchanged). -/
theorem claim_C4_amended (cfg : GuardrailConfig) (s : SysState) (cp_id : String)
    (limit_kw : Rat) (connector_id : Option Nat) (now : Nat)
    (hc : connectedDevice s cp_id = true)
    (hlim : ¬ (limit_kw < cfg.power_limit_min_kw ∨ cfg.power_limit_max_kw < limit_kw))
    (hr : (pruneWindow cfg.power_change_rate_limit_window_sec now
      (powerWindow s cp_id)).length < cfg.power_change_rate_limit_max)
    (ha : cfg.audit_enabled = true) :
    (set_power_limit cfg s cp_id limit_kw connector_id now).response =
      .ok ("Power limit set for " ++ cp_id) ∧
    (set_power_limit cfg s cp_id limit_kw connector_id now).sent = [] ∧
    (set_power_limit cfg s cp_id limit_kw connector_id now).sys.store.audit_log =
      s.store.audit_log ++
        [⟨now, cp_id, "api", "set_power_limit", .powerLimit limit_kw connector_id⟩] ∧
    alookup (set_power_limit cfg s cp_id limit_kw connector_id now).sys.store.power_limits cp_id =
      some (match connector_id with
        | some c => { ((alookup s.store.power_limits cp_id).getD ⟨none, []⟩) with
            per_connector :=
              aset ((alookup s.store.power_limits cp_id).getD ⟨none, []⟩).per_connector c limit_kw }
        | none => { ((alookup s.store.power_limits cp_id).getD ⟨none, []⟩) with
            default_kw := some limit_kw }) ∧
    (set_power_limit cfg s cp_id limit_kw connector_id now).sys.store.status = s.store.status ∧
    (set_power_limit cfg s cp_id limit_kw connector_id now).sys.store.heartbeat = s.store.heartbeat ∧
    (set_power_limit cfg s cp_id limit_kw connector_id now).sys.store.charge_points =
      s.store.charge_points ∧
    (set_power_limit cfg s cp_id limit_kw connector_id now).sys.store.resolved_diagnostics =
      s.store.resolved_diagnostics ∧
    (set_power_limit cfg s cp_id limit_kw connector_id now).sys.active_scenarios =
      s.active_scenarios ∧
    (set_power_limit cfg s cp_id limit_kw connector_id now).sys.complex_scenario =
      s.complex_scenario := by
  rw [spl_eq_admitted cfg s cp_id limit_kw connector_id now hc hlim hr]
  cases connector_id with
  | none => simp [ha, appendAudit, setPowerWindow, alookup_aset_self]
  | some c => simp [ha, appendAudit, setPowerWindow, alookup_aset_self]

/-- Witness for the amended C4 at a concrete input. -/
theorem claim_C4_amended_witness :
    (set_power_limit defaultGuardrailConfig (baseState [("EVSE005", 9)])
      "EVSE005" 22 none 3).response = .ok ("Power limit set for " ++ "EVSE005") ∧
    (set_power_limit defaultGuardrailConfig (baseState [("EVSE005", 9)])
      "EVSE005" 22 none 3).sent = [] ∧
    (set_power_limit defaultGuardrailConfig (baseState [("EVSE005", 9)])
      "EVSE005" 22 none 3).sys.store.audit_log =
      (baseState [("EVSE005", 9)]).store.audit_log ++
        [⟨3, "EVSE005", "api", "set_power_limit", .powerLimit 22 none⟩] ∧
    alookup (set_power_limit defaultGuardrailConfig (baseState [("EVSE005", 9)])
      "EVSE005" 22 none 3).sys.store.power_limits "EVSE005" =
      some { ((alookup (baseState [("EVSE005", 9)]).store.power_limits "EVSE005").getD ⟨none, []⟩) with
          default_kw := some 22 } ∧
    (set_power_limit defaultGuardrailConfig (baseState [("EVSE005", 9)])
      "EVSE005" 22 none 3).sys.store.status = (baseState [("EVSE005", 9)]).store.status ∧
    (set_power_limit defaultGuardrailConfig (baseState [("EVSE005", 9)])
      "EVSE005" 22 none 3).sys.store.heartbeat = (baseState [("EVSE005", 9)]).store.heartbeat ∧
    (set_power_limit defaultGuardrailConfig (baseState [("EVSE005", 9)])
      "EVSE005" 22 none 3).sys.store.charge_points =
      (baseState [("EVSE005", 9)]).store.charge_points ∧
    (set_power_limit defaultGuardrailConfig (baseState [("EVSE005", 9)])
      "EVSE005" 22 none 3).sys.store.resolved_diagnostics =
      (baseState [("EVSE005", 9)]).store.resolved_diagnostics ∧
    (set_power_limit defaultGuardrailConfig (baseState [("EVSE005", 9)])
      "EVSE005" 22 none 3).sys.active_scenarios =
      (baseState [("EVSE005", 9)]).active_scenarios ∧
    (set_power_limit defaultGuardrailConfig (baseState [("EVSE005", 9)])
      "EVSE005" 22 none 3).sys.complex_scenario =
      (baseState [("EVSE005", 9)]).complex_scenario :=
  claim_C4_amended defaultGuardrailConfig (baseState [("EVSE005", 9)])
    "EVSE005" 22 none 3 (by decide) (by decide) (by decide) rfl

/-! ## Claim C10: resolution tracking is hard-wired to EVSE003 and sticky -/

theorem diag_track_resolved_sub (s : SysState) (cp key value : String) :
    ∀ x ∈ s.store.resolved_diagnostics,
      x ∈ (diag_track s cp key value).store.resolved_diagnostics := by
  intro x hx
  simp only [diag_track, addResolved, setDiagChanges]
  split_ifs with h1 h2 h3 <;> first | exact hx | exact List.mem_cons_of_mem _ hx

theorem diag_track_resolved_sup (s : SysState) (cp key value : String) :
    ∀ x ∈ (diag_track s cp key value).store.resolved_diagnostics,
      x ∈ s.store.resolved_diagnostics ∨ x = "EVSE003" := by
  intro x hx
  simp only [diag_track, addResolved, setDiagChanges] at hx
  split_ifs at hx with h1 h2 h3
  · exact Or.inl hx
  · rcases List.mem_cons.mp hx with h | h
    · exact Or.inr (h.trans h1.1)
    · exact Or.inl h
  · exact Or.inl hx
  · exact Or.inl hx

theorem cae_resolved (cfg : GuardrailConfig) (s : SysState) (cp key value : String) (now : Nat) :
    (config_admitted_effects cfg s cp key value now).store.resolved_diagnostics =
      (diag_track s cp key value).store.resolved_diagnostics := by
  unfold config_admitted_effects
  split_ifs with h
  · rfl
  · rfl

theorem cc_resolved_sub (cfg : GuardrailConfig) (s : SysState)
    (cp key value : String) (now : Nat) :
    ∀ x ∈ s.store.resolved_diagnostics,
      x ∈ (change_configuration cfg s cp key value now).sys.store.resolved_diagnostics := by
  intro x hx
  by_cases hc : connectedDevice s cp = true
  · by_cases hrle : cfg.config_change_rate_limit_max ≤
      (pruneWindow cfg.config_change_rate_limit_window_sec now (configWindow s cp)).length
    · rw [cc_eq_rate_limited cfg s cp key value now hc hrle]
      exact hx
    · have hr := Nat.lt_of_not_le hrle
      by_cases hcond : cfg.allow_generic_change_config = false ∧ key ∉ cfg.allowed_config_keys
      · rw [cc_eq_forbidden cfg s cp key value now hc hr hcond.1 hcond.2]
        exact hx
      · rw [cc_eq_admitted cfg s cp key value now hc hr hcond]
        rw [cae_resolved]
        exact diag_track_resolved_sub
          (setConfigWindow s cp
            (pruneWindow cfg.config_change_rate_limit_window_sec now (configWindow s cp) ++ [now]))
          cp key value x hx
  · rw [cc_eq_not_connected cfg s cp key value now (Bool.not_eq_true _ ▸ hc)]
    exact hx

theorem cc_resolved_sup (cfg : GuardrailConfig) (s : SysState)
    (cp key value : String) (now : Nat) :
    ∀ x ∈ (change_configuration cfg s cp key value now).sys.store.resolved_diagnostics,
      x ∈ s.store.resolved_diagnostics ∨ x = "EVSE003" := by
  intro x hx
  by_cases hc : connectedDevice s cp = true
  · by_cases hrle : cfg.config_change_rate_limit_max ≤
      (pruneWindow cfg.config_change_rate_limit_window_sec now (configWindow s cp)).length
    · rw [cc_eq_rate_limited cfg s cp key value now hc hrle] at hx
      exact Or.inl hx
    · have hr := Nat.lt_of_not_le hrle
      by_cases hcond : cfg.allow_generic_change_config = false ∧ key ∉ cfg.allowed_config_keys
      · rw [cc_eq_forbidden cfg s cp key value now hc hr hcond.1 hcond.2] at hx
        exact Or.inl hx
      · rw [cc_eq_admitted cfg s cp key value now hc hr hcond] at hx
        rw [cae_resolved] at hx
        exact diag_track_resolved_sup
          (setConfigWindow s cp
            (pruneWindow cfg.config_change_rate_limit_window_sec now (configWindow s cp) ++ [now]))
          cp key value x hx
  · rw [cc_eq_not_connected cfg s cp key value now (Bool.not_eq_true _ ▸ hc)] at hx
    exact Or.inl hx

theorem run_any_resolved_sub (cfg : GuardrailConfig)
    (calls : List (String × String × String × Nat)) :
    ∀ s : SysState, ∀ x ∈ s.store.resolved_diagnostics,
      x ∈ (run_any_config_calls cfg s calls).store.resolved_diagnostics := by
  induction calls with
  | nil => intro s x hx; exact hx
  | cons c rest ih =>
    intro s x hx
    rcases c with ⟨cp, key, value, now⟩
    exact ih _ x (cc_resolved_sub cfg s cp key value now x hx)

theorem run_any_resolved_sup (cfg : GuardrailConfig)
    (calls : List (String × String × String × Nat)) :
    ∀ s : SysState, ∀ x ∈ (run_any_config_calls cfg s calls).store.resolved_diagnostics,
      x ∈ s.store.resolved_diagnostics ∨ x = "EVSE003" := by
  induction calls with
  | nil => intro s x hx; exact Or.inl hx
  | cons c rest ih =>
    intro s x hx
    rcases c with ⟨cp, key, value, now⟩
    rcases ih _ x hx with h | h
    · exact cc_resolved_sup cfg s cp key value now x h
    · exact Or.inr h

/-- Claim C10: diagnostic-resolution tracking is hard-wired to EVSE003 and is
sticky.  Along any sequence of setConfiguration calls (any devices, keys,
values, times, whatever each outcome), (i) a device found in the resolved set
afterwards was either already there or is EVSE003 — so no other device id is
ever added; (ii) membership is never removed by configuration calls, even
ones setting a tracked key to a wrong value; and (iii) the explicit
reset-diagnostics operation, and it alone along those paths, clears the set. -/
theorem claim_C10_hardwired_sticky :
    (∀ (cfg : GuardrailConfig) (s : SysState)
        (calls : List (String × String × String × Nat)) (x : String),
      x ∈ (run_any_config_calls cfg s calls).store.resolved_diagnostics →
        x ∈ s.store.resolved_diagnostics ∨ x = "EVSE003") ∧
    (∀ (cfg : GuardrailConfig) (s : SysState)
        (calls : List (String × String × String × Nat)) (x : String),
      x ∈ s.store.resolved_diagnostics →
        x ∈ (run_any_config_calls cfg s calls).store.resolved_diagnostics) ∧
    (∀ s : SysState, (reset_diagnostics s).store.resolved_diagnostics = []) := by
  refine ⟨?_, ?_, ?_⟩
  · intro cfg s calls x hx
    exact run_any_resolved_sup cfg calls s x hx
  · intro cfg s calls x hx
    exact run_any_resolved_sub cfg calls s x hx
  · intro s
    rfl

/-- Witness for C10 at a concrete input: a state where EVSE003 is already
resolved stays resolved across a call that sets a tracked key to a wrong
value, and no id other than EVSE003 appears afterwards. -/
theorem claim_C10_witness :
    ("EVSE003" ∈ (run_any_config_calls defaultGuardrailConfig
        { baseState [("EVSE003", 3)] with store :=
          { (baseState [("EVSE003", 3)]).store with resolved_diagnostics := ["EVSE003"] } }
        [("EVSE003", "ChargingProfileMaxStackLevel", "99", 0)]).store.resolved_diagnostics) ∧
    ("EVSE003" ∈ { baseState [("EVSE003", 3)] with store :=
          { (baseState [("EVSE003", 3)]).store with resolved_diagnostics := ["EVSE003"] }
        }.store.resolved_diagnostics ∨ ("EVSE003" : String) = "EVSE003") := by
  refine ⟨?_, ?_⟩
  · exact claim_C10_hardwired_sticky.2.1 defaultGuardrailConfig
      { baseState [("EVSE003", 3)] with store :=
        { (baseState [("EVSE003", 3)]).store with resolved_diagnostics := ["EVSE003"] } }
      [("EVSE003", "ChargingProfileMaxStackLevel", "99", 0)] "EVSE003" (by decide)
  · exact claim_C10_hardwired_sticky.1 defaultGuardrailConfig
      { baseState [("EVSE003", 3)] with store :=
        { (baseState [("EVSE003", 3)]).store with resolved_diagnostics := ["EVSE003"] } }
      [] "EVSE003" (by decide)

/-! ## Claim C8: stuck-charging scenario semantics -/

theorem alookup_isSome_mem {α : Type} (l : List (String × α)) (k : String)
    (h : (alookup l k).isSome = true) : k ∈ akeys l := by
  induction l with
  | nil => simp [alookup] at h
  | cons p rest ih =>
    simp only [alookup] at h
    by_cases hp : (p.1 == k) = true
    · have : p.1 = k := by simpa using hp
      simp [akeys, this]
    · simp only [Bool.not_eq_true] at hp
      rw [hp] at h
      simp only [Bool.false_eq_true, if_false] at h
      exact List.mem_cons_of_mem _ (ih h)

theorem gs_step_scen (s : SysState) (c : String) :
    (get_status_step s c).active_scenarios = s.active_scenarios := by
  unfold get_status_step
  split_ifs <;> rfl

theorem gs_fold_scen (l : List String) :
    ∀ s : SysState, (l.foldl get_status_step s).active_scenarios = s.active_scenarios := by
  induction l with
  | nil => intro s; rfl
  | cons c rest ih =>
    intro s
    rw [List.foldl_cons, ih, gs_step_scen]

theorem gs_step_keeps_forced (s : SysState) (c cp : String)
    (h : alookup s.store.status cp = some stuckStatusRecord) :
    alookup (get_status_step s c).store.status cp = some stuckStatusRecord := by
  unfold get_status_step
  split_ifs with hst
  · by_cases hcp : c = cp
    · subst hcp
      exact alookup_aset_self _ _ _
    · rw [show (setStatusRecord s c stuckStatusRecord).store.status =
          aset s.store.status c stuckStatusRecord from rfl]
      rw [alookup_aset_ne _ _ _ _ hcp]
      exact h
  · exact h

theorem gs_step_sets (s : SysState) (cp : String) (d : DemoScenario)
    (hs : alookup s.active_scenarios cp = some d) (hd : d.type = "stuck_charging") :
    alookup (get_status_step s cp).store.status cp = some stuckStatusRecord := by
  unfold get_status_step
  have : scenIsStuck (alookup s.active_scenarios cp) = true := by
    rw [hs]; simp [scenIsStuck, hd]
  rw [if_pos this]
  exact alookup_aset_self _ _ _

theorem gs_fold_forced (l : List String) :
    ∀ (s : SysState) (cp : String) (d : DemoScenario),
      alookup s.active_scenarios cp = some d → d.type = "stuck_charging" →
      (cp ∈ l ∨ alookup s.store.status cp = some stuckStatusRecord) →
      alookup (l.foldl get_status_step s).store.status cp = some stuckStatusRecord := by
  induction l with
  | nil =>
    intro s cp d hs hd hmem
    rcases hmem with h | h
    · exact absurd h (List.not_mem_nil cp)
    · exact h
  | cons c rest ih =>
    intro s cp d hs hd hmem
    rw [List.foldl_cons]
    have hs2 : alookup (get_status_step s c).active_scenarios cp = some d := by
      rw [gs_step_scen]; exact hs
    rcases hmem with h | h
    · rcases List.mem_cons.mp h with hc | hc
      · subst hc
        exact ih _ cp d hs2 hd (Or.inr (gs_step_sets s cp d hs hd))
      · exact ih _ cp d hs2 hd (Or.inl hc)
    · exact ih _ cp d hs2 hd (Or.inr (gs_step_keeps_forced s c cp h))

/-- Claim C8: while a stuck-charging scenario is active for a connected
device, (i) remoteStop sends no stop frame to the device, reports the ignore
message, forces the status record to Charging, and leaves the scenario in
place; (ii) every status read reports the forced Charging record for the
device and leaves the scenario in place; (iii) an escalation
(ChangeAvailability to Inoperative) clears the scenario as a side effect;
(iv) the explicit clear removes it. -/
theorem claim_C8_stuck_charging (s : SysState) (cp : String) (d : DemoScenario)
    (tx : Nat) (hc : connectedDevice s cp = true)
    (hs : alookup s.active_scenarios cp = some d) (hd : d.type = "stuck_charging") :
    ((remote_stop_transaction s cp tx).sent = [] ∧
     (remote_stop_transaction s cp tx).response =
       .ok ("RemoteStopTransaction ignored for " ++ cp ++
         " due to stuck_charging demo scenario") ∧
     alookup (remote_stop_transaction s cp tx).sys.store.status cp = some stuckStatusRecord ∧
     (remote_stop_transaction s cp tx).sys.active_scenarios = s.active_scenarios) ∧
    (alookup (get_status s).2.status cp = some stuckStatusRecord ∧
     (get_status s).1.active_scenarios = s.active_scenarios) ∧
    (∀ cid : Option Nat,
      alookup (change_availability s cp "Inoperative" cid).sys.active_scenarios cp = none) ∧
    (alookup (clearScenario s cp).active_scenarios cp = none) := by
  have hstuck : scenIsStuck (alookup s.active_scenarios cp) = true := by
    rw [hs]; simp [scenIsStuck, hd]
  refine ⟨?_, ?_, ?_, ?_⟩
  · have heq : remote_stop_transaction s cp tx =
        ⟨setStatusRecord s cp stuckStatusRecord, [],
         .ok ("RemoteStopTransaction ignored for " ++ cp ++
           " due to stuck_charging demo scenario")⟩ := by
      simp [remote_stop_transaction, hc, hstuck]
    rw [heq]
    exact ⟨rfl, rfl, alookup_aset_self _ _ _, rfl⟩
  · constructor
    · show alookup (get_status_state s).store.status cp = some stuckStatusRecord
      unfold get_status_state
      refine gs_fold_forced _ s cp d hs hd (Or.inl ?_)
      exact alookup_isSome_mem _ cp hc
    · show (get_status_state s).active_scenarios = s.active_scenarios
      exact gs_fold_scen _ s
  · intro cid
    have heq : (change_availability s cp "Inoperative" cid).sys = clearScenario s cp := by
      simp [change_availability, hc, hstuck]
    rw [heq]
    exact alookup_aremove_self _ _
  · exact alookup_aremove_self _ _

/-- Witness for C8 at a concrete input: EVSE004 connected with an active
stuck_charging scenario. -/
theorem claim_C8_witness :
    ((remote_stop_transaction
        { baseState [("EVSE004", 4)] with
          active_scenarios := [("EVSE004", ⟨"stuck_charging", "charging"⟩)] }
        "EVSE004" 1).sent = [] ∧
     (remote_stop_transaction
        { baseState [("EVSE004", 4)] with
          active_scenarios := [("EVSE004", ⟨"stuck_charging", "charging"⟩)] }
        "EVSE004" 1).response =
       .ok ("RemoteStopTransaction ignored for " ++ "EVSE004" ++
         " due to stuck_charging demo scenario") ∧
     alookup (remote_stop_transaction
        { baseState [("EVSE004", 4)] with
          active_scenarios := [("EVSE004", ⟨"stuck_charging", "charging"⟩)] }
        "EVSE004" 1).sys.store.status "EVSE004" = some stuckStatusRecord ∧
     (remote_stop_transaction
        { baseState [("EVSE004", 4)] with
          active_scenarios := [("EVSE004", ⟨"stuck_charging", "charging"⟩)] }
        "EVSE004" 1).sys.active_scenarios =
       ({ baseState [("EVSE004", 4)] with
          active_scenarios := [("EVSE004", ⟨"stuck_charging", "charging"⟩)] } :
            SysState).active_scenarios) ∧
    (alookup (get_status
        { baseState [("EVSE004", 4)] with
          active_scenarios := [("EVSE004", ⟨"stuck_charging", "charging"⟩)] }).2.status
        "EVSE004" = some stuckStatusRecord ∧
     (get_status
        { baseState [("EVSE004", 4)] with
          active_scenarios := [("EVSE004", ⟨"stuck_charging", "charging"⟩)] }).1.active_scenarios =
       ({ baseState [("EVSE004", 4)] with
          active_scenarios := [("EVSE004", ⟨"stuck_charging", "charging"⟩)] } :
            SysState).active_scenarios) ∧
    (∀ cid : Option Nat,
      alookup (change_availability
        { baseState [("EVSE004", 4)] with
          active_scenarios := [("EVSE004", ⟨"stuck_charging", "charging"⟩)] }
        "EVSE004" "Inoperative" cid).sys.active_scenarios "EVSE004" = none) ∧
    (alookup (clearScenario
        { baseState [("EVSE004", 4)] with
          active_scenarios := [("EVSE004", ⟨"stuck_charging", "charging"⟩)] }
        "EVSE004").active_scenarios "EVSE004" = none) :=
  claim_C8_stuck_charging
    { baseState [("EVSE004", 4)] with
      active_scenarios := [("EVSE004", ⟨"stuck_charging", "charging"⟩)] }
    "EVSE004" ⟨"stuck_charging", "charging"⟩ 1 (by decide) (by decide) rfl

/-! ## Claim C1: the concrete EVSE003 diagnostic walkthrough -/

/-- The initial state of the C1 walkthrough: EVSE003 connected, fresh store. -/
def c1Init : SysState := baseState [("EVSE003", 3)]

/-- Claim C1, evaluated on the code at the failing input: triggering
charging_profile_mismatch for EVSE003 reports success, but
`DemoScenarioManager.trigger_scenario` has no branch for that name, so the
state is unchanged and the subsequent progress query answers not_active
rather than the claimed 0/6 progress; the remainder of the claimed sequence
(the three required setConfiguration calls and the Soft reset) does place
EVSE003 in the resolution set. -/
theorem claim_C1_code_divergence :
    (trigger_demo_scenario c1Init "charging_profile_mismatch" "EVSE003").response =
      .ok ("Triggered " ++ "charging_profile_mismatch" ++ " for " ++ "EVSE003") ∧
    (trigger_demo_scenario c1Init "charging_profile_mismatch" "EVSE003").sys = c1Init ∧
    get_scenario_progress
      (trigger_demo_scenario c1Init "charging_profile_mismatch" "EVSE003").sys "EVSE003" =
      .ok .not_active ∧
    ("EVSE003" ∈
      ((run_config_calls defaultGuardrailConfig
          (trigger_demo_scenario c1Init "charging_profile_mismatch" "EVSE003").sys "EVSE003"
          [(0, "ChargingProfileMaxStackLevel", "1"),
           (1, "ChargingScheduleMaxPeriods", "100"),
           (2, "MaxChargingProfilesInstalled", "1")]).map
        (fun s2 => (reset_charge_point s2 "EVSE003" "Soft").sys.store.resolved_diagnostics)).getD
        []) := by
  refine ⟨by decide, by decide, by decide, by decide⟩

/-! ## Claim C5: the sliding-window rate limit -/

theorem pruneWindow_pruneWindow (wS n1 n2 : Nat) (l : List Nat) (h : n1 ≤ n2) :
    pruneWindow wS n2 (pruneWindow wS n1 l) = pruneWindow wS n2 l := by
  unfold pruneWindow
  rw [List.filter_filter]
  apply List.filter_congr
  intro t _
  by_cases h2 : n2 - t ≤ wS
  · have h1 : n1 - t ≤ wS := le_trans (Nat.sub_le_sub_right h t) h2
    simp [h1, h2]
  · simp [h2]

theorem pruneWindow_length_le (wS now : Nat) (l : List Nat) :
    (pruneWindow wS now l).length ≤ l.length :=
  List.length_filter_le _ l

theorem rate_gate_window_mem (wS mC : Nat) (w : List Nat) (now : Nat) :
    ∀ t ∈ (rate_gate wS mC w now).2, now - t ≤ wS := by
  intro t ht
  simp only [rate_gate] at ht
  split_ifs at ht with h
  · have := List.of_mem_filter ht
    simpa using this
  · rcases List.mem_append.mp ht with h2 | h2
    · have := List.of_mem_filter h2
      simpa using this
    · have : t = now := by simpa using h2
      subst this
      simp

theorem rate_run_append (wS mC : Nat) (l1 l2 : List Nat) :
    ∀ events : List Nat,
      rate_run wS mC events (l1 ++ l2) =
        ((rate_run wS mC (rate_run wS mC events l1).1 l2).1,
         (rate_run wS mC events l1).2 ++ (rate_run wS mC (rate_run wS mC events l1).1 l2).2) := by
  induction l1 with
  | nil => intro events; simp [rate_run]
  | cons now rest ih =>
    intro events
    simp only [List.cons_append, rate_run, List.append_eq]
    rw [ih]
    by_cases hok : (rate_gate wS mC events now).1 = true
    · simp [hok]
    · simp only [Bool.not_eq_true] at hok
      simp [hok]

theorem rate_run_bound_aux (wS mC : Nat) (ts : List Nat) :
    ∀ (n0 : Nat) (adm events : List Nat),
      List.Sorted (· ≤ ·) ts → (∀ t ∈ ts, n0 ≤ t) → (∀ a ∈ adm, a ≤ n0) →
      events = pruneWindow wS n0 adm → events.length ≤ mC →
      ∀ T, n0 ≤ T → (∀ t ∈ ts, t ≤ T) →
        (pruneWindow wS T (adm ++ (rate_run wS mC events ts).2)).length ≤ mC := by
  induction ts with
  | nil =>
    intro n0 adm events _ _ _ hev hlen T hT _
    simp only [rate_run, List.append_nil]
    rw [← pruneWindow_pruneWindow wS n0 T adm hT, ← hev]
    exact le_trans (pruneWindow_length_le wS T events) hlen
  | cons now rest ih =>
    intro n0 adm events hsort hlo hadm hev hlen T hT hhi
    have hn0now : n0 ≤ now := hlo now (List.mem_cons_self _ _)
    have hsc := List.sorted_cons.mp hsort
    have hpruned : pruneWindow wS now events = pruneWindow wS now adm := by
      rw [hev, pruneWindow_pruneWindow wS n0 now adm hn0now]
    have hnowT : now ≤ T := hhi now (List.mem_cons_self _ _)
    by_cases hfull : mC ≤ (pruneWindow wS now events).length
    · have hstep : rate_gate wS mC events now = (false, pruneWindow wS now events) := by
        simp [rate_gate, hfull]
      have hlen2 : (pruneWindow wS now adm).length ≤ mC := by
        rw [← hpruned]
        exact le_trans (pruneWindow_length_le wS now events) hlen
      have := ih now adm (pruneWindow wS now adm) hsc.2 hsc.1
        (fun a ha => le_trans (hadm a ha) hn0now) rfl hlen2 T hnowT
        (fun t ht => hhi t (List.mem_cons_of_mem _ ht))
      have hstep1 : (rate_gate wS mC events now).1 = false := by rw [hstep]
      have hstep2 : (rate_gate wS mC events now).2 = pruneWindow wS now adm := by
        rw [hstep]; exact hpruned
      simp only [rate_run, hstep1, hstep2]
      rw [if_neg Bool.false_ne_true]
      exact this
    ·
      have hlt := Nat.lt_of_not_le hfull
      have hstep : rate_gate wS mC events now = (true, pruneWindow wS now events ++ [now]) := by
        simp [rate_gate, hfull]
      have hev2 : pruneWindow wS now events ++ [now] = pruneWindow wS now (adm ++ [now]) := by
        rw [hpruned]
        unfold pruneWindow
        rw [List.filter_append]
        simp
      have hlen2 : (pruneWindow wS now (adm ++ [now])).length ≤ mC := by
        rw [← hev2, List.length_append, List.length_singleton]
        rw [hpruned] at hlt ⊢
        omega
      have hadm2 : ∀ a ∈ adm ++ [now], a ≤ now := by
        intro a ha
        rcases List.mem_append.mp ha with h2 | h2
        · exact le_trans (hadm a h2) hn0now
        · have : a = now := by simpa using h2
          exact le_of_eq this
      have := ih now (adm ++ [now]) (pruneWindow wS now (adm ++ [now])) hsc.2 hsc.1
        hadm2 rfl hlen2 T hnowT (fun t ht => hhi t (List.mem_cons_of_mem _ ht))
      have harr : adm ++ now :: (rate_run wS mC (pruneWindow wS now (adm ++ [now])) rest).2 =
          (adm ++ [now]) ++ (rate_run wS mC (pruneWindow wS now (adm ++ [now])) rest).2 := by
        simp
      have hstep1 : (rate_gate wS mC events now).1 = true := by rw [hstep]
      have hstep2 : (rate_gate wS mC events now).2 = pruneWindow wS now (adm ++ [now]) := by
        rw [hstep]; exact hev2
      simp only [rate_run, hstep1, hstep2, if_true]
      rw [harr]
      exact this

theorem rate_run_sliding_bound (wS mC : Nat) (ts : List Nat) (T : Nat)
    (hsort : List.Sorted (· ≤ ·) ts) (hhi : ∀ t ∈ ts, t ≤ T) :
    (pruneWindow wS T (rate_run wS mC [] ts).2).length ≤ mC := by
  have := rate_run_bound_aux wS mC ts 0 [] [] hsort (fun t _ => Nat.zero_le t)
    (by intro a ha; cases ha) rfl (Nat.zero_le mC) T (Nat.zero_le T) hhi
  simpa using this

theorem rate_run_replicate (wS mC t : Nat) :
    ∀ (k : Nat) (w : List Nat), w.length + k ≤ mC → (∀ x ∈ w, t - x ≤ wS) →
      rate_run wS mC w (List.replicate k t) = (w ++ List.replicate k t, List.replicate k t) := by
  intro k
  induction k with
  | zero => intro w _ _; simp [rate_run]
  | succ k ih =>
    intro w hlen hwin
    rw [List.replicate_succ]
    have hpr : pruneWindow wS t w = w := by
      unfold pruneWindow
      apply List.filter_eq_self.mpr
      intro x hx
      simpa using hwin x hx
    have hlt : ¬ mC ≤ w.length := by omega
    have hstep : rate_gate wS mC w t = (true, w ++ [t]) := by
      simp [rate_gate, hpr, hlt]
    have hnext := ih (w ++ [t])
      (by rw [List.length_append, List.length_singleton]; omega)
      (by
        intro x hx
        rcases List.mem_append.mp hx with h2 | h2
        · exact hwin x h2
        · have : x = t := by simpa using h2
          subst this; simp)
    simp [rate_run, hstep, hnext, List.append_assoc]

theorem rate_run_max_plus_one (wS mC t t2 : Nat) (h1 : t ≤ t2) (h2 : t2 - t ≤ wS) :
    rate_run wS mC [] (List.replicate mC t ++ [t2]) =
      (List.replicate mC t, List.replicate mC t) := by
  rw [rate_run_append]
  rw [rate_run_replicate wS mC t mC [] (by simp) (by intro x hx; cases hx)]
  have hpr : pruneWindow wS t2 (List.replicate mC t) = List.replicate mC t := by
    unfold pruneWindow
    apply List.filter_eq_self.mpr
    intro x hx
    have : x = t := List.eq_of_mem_replicate hx
    subst this
    simpa using h2
  have hfull : mC ≤ (pruneWindow wS t2 (List.replicate mC t)).length := by
    rw [hpr, List.length_replicate]
  have hstep : rate_gate wS mC (List.replicate mC t) t2 =
      (false, List.replicate mC t) := by
    simp [rate_gate, hpr, hfull]
  simp [rate_run, hstep]

theorem cc_rate_limited_iff (cfg : GuardrailConfig) (s : SysState)
    (cp key value : String) (now : Nat) (hc : connectedDevice s cp = true) :
    (change_configuration cfg s cp key value now).response =
      .error (.rateLimited "Too many configuration changes. Please wait and try again.") ↔
    cfg.config_change_rate_limit_max ≤
      (pruneWindow cfg.config_change_rate_limit_window_sec now (configWindow s cp)).length := by
  constructor
  · intro h
    by_contra hlt
    have hr := Nat.lt_of_not_le hlt
    by_cases hcond : cfg.allow_generic_change_config = false ∧ key ∉ cfg.allowed_config_keys
    · rw [cc_eq_forbidden cfg s cp key value now hc hr hcond.1 hcond.2] at h
      simp at h
    · rw [cc_eq_admitted cfg s cp key value now hc hr hcond] at h
      simp at h
  · intro h
    rw [cc_eq_rate_limited cfg s cp key value now hc h]

theorem spl_rate_limited_iff (cfg : GuardrailConfig) (s : SysState) (cp : String)
    (limit_kw : Rat) (connector_id : Option Nat) (now : Nat)
    (hc : connectedDevice s cp = true)
    (hlim : ¬ (limit_kw < cfg.power_limit_min_kw ∨ cfg.power_limit_max_kw < limit_kw)) :
    (set_power_limit cfg s cp limit_kw connector_id now).response =
      .error (.rateLimited "Too many power limit changes. Please wait and try again.") ↔
    cfg.power_change_rate_limit_max ≤
      (pruneWindow cfg.power_change_rate_limit_window_sec now (powerWindow s cp)).length := by
  constructor
  · intro h
    by_contra hlt
    have hr := Nat.lt_of_not_le hlt
    rw [spl_eq_admitted cfg s cp limit_kw connector_id now hc hlim hr] at h
    by_cases ha : cfg.audit_enabled = true <;> simp [ha] at h
  · intro h
    rw [spl_eq_rate_limited cfg s cp limit_kw connector_id now hc hlim h]

/-- Claim C5: the sliding-window rate limit.  (i) The stored window after any
admission check only holds timestamps within the trailing window duration
(entries older than the window are pruned before every check); (ii) for any
nondecreasing sequence of attempt times starting from a fresh window, the
admitted attempts lying within the window duration of any bound T of the run
never number more than the configured maximum — runs decompose along prefixes
by (iii), so this bounds every sliding window of every run; (iv) after max
admissions at time t, the (max+1)-th attempt at a time still within the
window of t is rejected; (v) and (vi): a connected device's
setConfiguration (resp. in-range setPowerLimit) is rejected with the
RateLimited (429) error exactly when the pruned window count has reached the
category's maximum. -/
theorem claim_C5_rate_limit :
    (∀ (wS mC : Nat) (w : List Nat) (now : Nat),
      ∀ t ∈ (rate_gate wS mC w now).2, now - t ≤ wS) ∧
    (∀ (wS mC : Nat) (ts : List Nat) (T : Nat),
      List.Sorted (· ≤ ·) ts → (∀ t ∈ ts, t ≤ T) →
      (pruneWindow wS T (rate_run wS mC [] ts).2).length ≤ mC) ∧
    (∀ (wS mC : Nat) (l1 l2 events : List Nat),
      rate_run wS mC events (l1 ++ l2) =
        ((rate_run wS mC (rate_run wS mC events l1).1 l2).1,
         (rate_run wS mC events l1).2 ++
           (rate_run wS mC (rate_run wS mC events l1).1 l2).2)) ∧
    (∀ (wS mC t t2 : Nat), t ≤ t2 → t2 - t ≤ wS →
      rate_run wS mC [] (List.replicate mC t ++ [t2]) =
        (List.replicate mC t, List.replicate mC t)) ∧
    (∀ (cfg : GuardrailConfig) (s : SysState) (cp key value : String) (now : Nat),
      connectedDevice s cp = true →
      ((change_configuration cfg s cp key value now).response =
        .error (.rateLimited "Too many configuration changes. Please wait and try again.") ↔
      cfg.config_change_rate_limit_max ≤
        (pruneWindow cfg.config_change_rate_limit_window_sec now (configWindow s cp)).length)) ∧
    (∀ (cfg : GuardrailConfig) (s : SysState) (cp : String) (limit_kw : Rat)
        (connector_id : Option Nat) (now : Nat),
      connectedDevice s cp = true →
      ¬ (limit_kw < cfg.power_limit_min_kw ∨ cfg.power_limit_max_kw < limit_kw) →
      ((set_power_limit cfg s cp limit_kw connector_id now).response =
        .error (.rateLimited "Too many power limit changes. Please wait and try again.") ↔
      cfg.power_change_rate_limit_max ≤
        (pruneWindow cfg.power_change_rate_limit_window_sec now (powerWindow s cp)).length)) := by
  refine ⟨rate_gate_window_mem, ?_, ?_, rate_run_max_plus_one, ?_, ?_⟩
  · intro wS mC ts T hsort hhi
    exact rate_run_sliding_bound wS mC ts T hsort hhi
  · intro wS mC l1 l2 events
    exact rate_run_append wS mC l1 l2 events
  · intro cfg s cp key value now hc
    exact cc_rate_limited_iff cfg s cp key value now hc
  · intro cfg s cp limit_kw connector_id now hc hlim
    exact spl_rate_limited_iff cfg s cp limit_kw connector_id now hc hlim

/-- Witness for C5 at concrete inputs: with the default configuration limits
(60-second window, max 5 power changes), five attempts at time 0 are all
admitted and the sixth at time 1 (within the window) is rejected; the
admitted count within the window bound 1 is at most 5. -/
theorem claim_C5_witness :
    rate_run 60 5 [] (List.replicate 5 0 ++ [1]) =
      (List.replicate 5 0, List.replicate 5 0) ∧
    (pruneWindow 60 1 (rate_run 60 5 [] [0, 0, 0, 0, 0]).2).length ≤ 5 := by
  refine ⟨claim_C5_rate_limit.2.2.2.1 60 5 0 1 (by decide) (by decide), ?_⟩
  exact claim_C5_rate_limit.2.1 60 5 [0, 0, 0, 0, 0] 1
    (by simp) (by intro t ht; simp at ht; omega)

/-! ## Claim C6: order-independent diagnostic resolution -/

/-- The diagnostic tracking map of device EVSE003
(`STORE.diagnostic_config_changes.get("EVSE003", dict())`). -/
def dmap (s : SysState) : List (String × String) :=
  (alookup s.store.diagnostic_config_changes "EVSE003").getD []

theorem addResolved_dmap (s : SysState) (cp : String) :
    dmap (addResolved s cp) = dmap s := by
  unfold addResolved
  split_ifs <;> rfl

theorem addResolved_mem (s : SysState) (cp : String) :
    cp ∈ (addResolved s cp).store.resolved_diagnostics := by
  unfold addResolved
  split_ifs with h
  · exact h
  · exact List.mem_cons_self _ _

theorem cae_dmap (cfg : GuardrailConfig) (s : SysState) (cp key value : String) (now : Nat) :
    dmap (config_admitted_effects cfg s cp key value now) = dmap (diag_track s cp key value) := by
  unfold config_admitted_effects appendAudit
  split_ifs <;> rfl

theorem diag_track_evse (s : SysState) (key value : String)
    (hk : key ∈ diagnostic_tracked_keys) :
    dmap (diag_track s "EVSE003" key value) = aset (dmap s) key value ∧
    (required_check (aset (dmap s) key value) = true →
      "EVSE003" ∈ (diag_track s "EVSE003" key value).store.resolved_diagnostics) ∧
    (required_check (aset (dmap s) key value) = false →
      (diag_track s "EVSE003" key value).store.resolved_diagnostics =
        s.store.resolved_diagnostics) := by
  have hcond : ("EVSE003" : String) = "EVSE003" ∧ key ∈ diagnostic_tracked_keys := ⟨rfl, hk⟩
  unfold diag_track
  rw [if_pos hcond]
  by_cases hreq : required_check (aset (dmap s) key value) = true
  · rw [if_pos (show required_check
      (aset ((alookup s.store.diagnostic_config_changes "EVSE003").getD []) key value) = true
      from hreq)]
    refine ⟨?_, fun _ => addResolved_mem _ _, fun hf => absurd hreq (by rw [hf]; simp)⟩
    rw [addResolved_dmap]
    show (alookup (aset s.store.diagnostic_config_changes "EVSE003"
      (aset (dmap s) key value)) "EVSE003").getD [] = aset (dmap s) key value
    rw [alookup_aset_self]
    rfl
  · rw [if_neg (show ¬ required_check
      (aset ((alookup s.store.diagnostic_config_changes "EVSE003").getD []) key value) = true
      from hreq)]
    refine ⟨?_, fun ht => absurd ht hreq, fun _ => rfl⟩
    show (alookup (aset s.store.diagnostic_config_changes "EVSE003"
      (aset (dmap s) key value)) "EVSE003").getD [] = aset (dmap s) key value
    rw [alookup_aset_self]
    rfl

theorem diag_track_skip (s : SysState) (cp key value : String)
    (h : ¬ (cp = "EVSE003" ∧ key ∈ diagnostic_tracked_keys)) :
    diag_track s cp key value = s := by
  unfold diag_track
  rw [if_neg h]

theorem cc_ok_admitted_sys (cfg : GuardrailConfig) (s : SysState)
    (cp key value : String) (now : Nat) (m : String)
    (h : (change_configuration cfg s cp key value now).response = .ok m) :
    (change_configuration cfg s cp key value now).sys =
      config_admitted_effects cfg
        (setConfigWindow s cp
          (pruneWindow cfg.config_change_rate_limit_window_sec now (configWindow s cp) ++ [now]))
        cp key value now := by
  by_cases hc : connectedDevice s cp = true
  · by_cases hrle : cfg.config_change_rate_limit_max ≤
      (pruneWindow cfg.config_change_rate_limit_window_sec now (configWindow s cp)).length
    · rw [cc_eq_rate_limited cfg s cp key value now hc hrle] at h
      simp at h
    · have hr := Nat.lt_of_not_le hrle
      by_cases hcond : cfg.allow_generic_change_config = false ∧ key ∉ cfg.allowed_config_keys
      · rw [cc_eq_forbidden cfg s cp key value now hc hr hcond.1 hcond.2] at h
        simp at h
      · rw [cc_eq_admitted cfg s cp key value now hc hr hcond]
  · rw [cc_eq_not_connected cfg s cp key value now (Bool.not_eq_true _ ▸ hc)] at h
    simp at h

theorem cc_ok_step_tracked (cfg : GuardrailConfig) (s : SysState)
    (key value : String) (now : Nat) (m : String)
    (h : (change_configuration cfg s "EVSE003" key value now).response = .ok m)
    (hk : key ∈ diagnostic_tracked_keys) :
    dmap (change_configuration cfg s "EVSE003" key value now).sys = aset (dmap s) key value ∧
    (required_check (aset (dmap s) key value) = true →
      "EVSE003" ∈ (change_configuration cfg s "EVSE003" key value now).sys.store.resolved_diagnostics) ∧
    (required_check (aset (dmap s) key value) = false →
      (change_configuration cfg s "EVSE003" key value now).sys.store.resolved_diagnostics =
        s.store.resolved_diagnostics) := by
  rw [cc_ok_admitted_sys cfg s "EVSE003" key value now m h]
  set s1 := setConfigWindow s "EVSE003"
    (pruneWindow cfg.config_change_rate_limit_window_sec now (configWindow s "EVSE003") ++ [now])
    with hs1
  have hd1 : dmap s1 = dmap s := rfl
  have hres1 : s1.store.resolved_diagnostics = s.store.resolved_diagnostics := rfl
  have htrack := diag_track_evse s1 key value hk
  refine ⟨?_, ?_, ?_⟩
  · rw [cae_dmap, htrack.1, hd1]
  · intro hreq
    rw [show (config_admitted_effects cfg s1 "EVSE003" key value now).store.resolved_diagnostics =
      (diag_track s1 "EVSE003" key value).store.resolved_diagnostics from cae_resolved cfg s1 "EVSE003" key value now]
    exact htrack.2.1 (by rw [hd1] at htrack ⊢; exact hreq)
  · intro hreq
    rw [show (config_admitted_effects cfg s1 "EVSE003" key value now).store.resolved_diagnostics =
      (diag_track s1 "EVSE003" key value).store.resolved_diagnostics from cae_resolved cfg s1 "EVSE003" key value now]
    rw [htrack.2.2 (by rw [hd1] at htrack ⊢; exact hreq)]
    exact hres1

theorem cc_ok_step_untracked (cfg : GuardrailConfig) (s : SysState)
    (key value : String) (now : Nat) (m : String)
    (h : (change_configuration cfg s "EVSE003" key value now).response = .ok m)
    (hk : key ∉ diagnostic_tracked_keys) :
    dmap (change_configuration cfg s "EVSE003" key value now).sys = dmap s ∧
    (change_configuration cfg s "EVSE003" key value now).sys.store.resolved_diagnostics =
      s.store.resolved_diagnostics := by
  rw [cc_ok_admitted_sys cfg s "EVSE003" key value now m h]
  set s1 := setConfigWindow s "EVSE003"
    (pruneWindow cfg.config_change_rate_limit_window_sec now (configWindow s "EVSE003") ++ [now])
    with hs1
  have hskip : diag_track s1 "EVSE003" key value = s1 :=
    diag_track_skip s1 "EVSE003" key value (fun hc => hk hc.2)
  have hd1 : dmap s1 = dmap s := rfl
  have hres1 : s1.store.resolved_diagnostics = s.store.resolved_diagnostics := rfl
  constructor
  · rw [cae_dmap, hskip]
    exact hd1
  · rw [show (config_admitted_effects cfg s1 "EVSE003" key value now).store.resolved_diagnostics =
      (diag_track s1 "EVSE003" key value).store.resolved_diagnostics from cae_resolved cfg s1 "EVSE003" key value now]
    rw [hskip]
    exact hres1

theorem foldl_aset_lookup_of_not_mem (ps : List (String × String)) :
    ∀ (m : List (String × String)) (k : String), k ∉ ps.map Prod.fst →
      alookup (ps.foldl (fun m2 p => aset m2 p.1 p.2) m) k = alookup m k := by
  induction ps with
  | nil => intro m k _; rfl
  | cons p rest ih =>
    intro m k hk
    simp only [List.map_cons, List.mem_cons, not_or] at hk
    rw [List.foldl_cons, ih _ k hk.2]
    exact alookup_aset_ne _ _ _ _ (fun h2 => hk.1 h2.symm)

theorem foldl_aset_lookup_of_mem (ps : List (String × String)) :
    ∀ (m : List (String × String)) (k v : String),
      (ps.map Prod.fst).Nodup → (k, v) ∈ ps →
      alookup (ps.foldl (fun m2 p => aset m2 p.1 p.2) m) k = some v := by
  induction ps with
  | nil => intro m k v _ hmem; cases hmem
  | cons p rest ih =>
    intro m k v hnd hmem
    rw [List.foldl_cons]
    simp only [List.map_cons, List.nodup_cons] at hnd
    rcases List.mem_cons.mp hmem with h | h
    · have hp1 : p.1 = k := by rw [← h]
      have hp2 : p.2 = v := by rw [← h]
      have hnm : k ∉ rest.map Prod.fst := by rw [← hp1]; exact hnd.1
      rw [foldl_aset_lookup_of_not_mem rest _ k hnm, hp1, hp2]
      exact alookup_aset_self _ _ _
    · exact ih _ k v hnd.2 h

theorem required_check_lookup (mp : List (String × String)) (k v : String)
    (hkv : (k, v) ∈ required_changes) (h : required_check mp = true) :
    alookup mp k = some v := by
  unfold required_check at h
  rw [List.all_eq_true] at h
  have := h (k, v) hkv
  simpa using this

theorem run_calls_cons (cfg : GuardrailConfig) (s : SysState)
    (now : Nat) (key value : String) (rest : List (Nat × String × String)) :
    run_config_calls cfg s "EVSE003" ((now, key, value) :: rest) =
      match (change_configuration cfg s "EVSE003" key value now).response with
      | .ok _ => run_config_calls cfg
          (change_configuration cfg s "EVSE003" key value now).sys "EVSE003" rest
      | .error _ => none := rfl

theorem run_calls_tracked (cfg : GuardrailConfig) :
    ∀ (calls : List (Nat × String × String)) (s s2 : SysState),
      (∀ c ∈ calls, c.2.1 ∈ diagnostic_tracked_keys) →
      run_config_calls cfg s "EVSE003" calls = some s2 →
      dmap s2 = (calls.map (fun c => (c.2.1, c.2.2))).foldl
        (fun m2 p => aset m2 p.1 p.2) (dmap s) ∧
      (calls ≠ [] → required_check (dmap s2) = true →
        "EVSE003" ∈ s2.store.resolved_diagnostics) := by
  intro calls
  induction calls with
  | nil =>
    intro s s2 _ hrun
    have : s = s2 := by simpa [run_config_calls] using hrun
    subst this
    exact ⟨rfl, fun hne _ => absurd rfl hne⟩
  | cons c rest ih =>
    intro s s2 hall hrun
    rcases c with ⟨now, key, value⟩
    have hk : key ∈ diagnostic_tracked_keys := hall (now, key, value) (List.mem_cons_self _ _)
    rw [run_calls_cons] at hrun
    cases ho : (change_configuration cfg s "EVSE003" key value now).response with
    | error e => rw [ho] at hrun; cases hrun
    | ok msg =>
      rw [ho] at hrun
      have hstep := cc_ok_step_tracked cfg s key value now msg ho hk
      cases rest with
      | nil =>
        have hs2 : (change_configuration cfg s "EVSE003" key value now).sys = s2 := by
          simpa [run_config_calls] using hrun
        refine ⟨?_, ?_⟩
        · rw [← hs2, hstep.1]
          rfl
        · intro _ hreq
          rw [← hs2]
          apply hstep.2.1
          rw [← hstep.1, hs2]
          exact hreq
      | cons c2 rest2 =>
        have hall2 : ∀ x ∈ c2 :: rest2, x.2.1 ∈ diagnostic_tracked_keys :=
          fun x hx => hall x (List.mem_cons_of_mem _ hx)
        have hih := ih (change_configuration cfg s "EVSE003" key value now).sys s2 hall2 hrun
        refine ⟨?_, fun _ hreq => hih.2 (by simp) hreq⟩
        rw [hih.1, hstep.1]
        rfl

theorem run_calls_wrong_value (cfg : GuardrailConfig) (k v : String)
    (hkv : (k, v) ∈ required_changes) :
    ∀ (calls : List (Nat × String × String)) (s s2 : SysState),
      (∀ c ∈ calls, c.2.1 = k → ¬ c.2.2 = v) →
      ¬ alookup (dmap s) k = some v →
      "EVSE003" ∉ s.store.resolved_diagnostics →
      run_config_calls cfg s "EVSE003" calls = some s2 →
      "EVSE003" ∉ s2.store.resolved_diagnostics ∧ ¬ alookup (dmap s2) k = some v := by
  intro calls
  induction calls with
  | nil =>
    intro s s2 _ hbad hres hrun
    have : s = s2 := by simpa [run_config_calls] using hrun
    subst this
    exact ⟨hres, hbad⟩
  | cons c rest ih =>
    intro s s2 hall hbad hres hrun
    rcases c with ⟨now, key, value⟩
    rw [run_calls_cons] at hrun
    cases ho : (change_configuration cfg s "EVSE003" key value now).response with
    | error e => rw [ho] at hrun; cases hrun
    | ok msg =>
      rw [ho] at hrun
      have hall2 : ∀ x ∈ rest, x.2.1 = k → ¬ x.2.2 = v :=
        fun x hx => hall x (List.mem_cons_of_mem _ hx)
      by_cases hk : key ∈ diagnostic_tracked_keys
      · have hstep := cc_ok_step_tracked cfg s key value now msg ho hk
        have hbad2 : ¬ alookup (dmap (change_configuration cfg s "EVSE003" key value now).sys) k
            = some v := by
          rw [hstep.1]
          by_cases hkey : key = k
          · subst hkey
            rw [alookup_aset_self]
            intro hcontra
            exact hall (now, key, value) (List.mem_cons_self _ _) rfl
              (by injection hcontra)
          · rw [alookup_aset_ne _ _ _ _ hkey]
            exact hbad
        have hreqf : required_check (aset (dmap s) key value) = false := by
          rw [Bool.eq_false_iff]
          intro hcontra
          apply hbad2
          rw [hstep.1]
          exact required_check_lookup _ k v hkv hcontra
        have hres2 : "EVSE003" ∉
            (change_configuration cfg s "EVSE003" key value now).sys.store.resolved_diagnostics := by
          rw [hstep.2.2 hreqf]
          exact hres
        exact ih _ s2 hall2 hbad2 hres2 hrun
      · have hstep := cc_ok_step_untracked cfg s key value now msg ho hk
        have hbad2 : ¬ alookup (dmap (change_configuration cfg s "EVSE003" key value now).sys) k
            = some v := by rw [hstep.1]; exact hbad
        have hres2 : "EVSE003" ∉
            (change_configuration cfg s "EVSE003" key value now).sys.store.resolved_diagnostics := by
          rw [hstep.2]; exact hres
        exact ih _ s2 hall2 hbad2 hres2 hrun

/-- Claim C6: resolution of the diagnostic scenario through the guarded
configuration-change path is order-independent.  (i) For any permutation of
the three required (key, value) pairs, a successful run of the three
setConfiguration calls for EVSE003 puts the device in the resolved set;
(ii) while some required pair's key is only ever set to a wrong value (and
its latest observed value is not the required one), the device never enters
the resolved set no matter how the other calls go, and the key's tracked
value stays wrong; (iii) a call for one key never rolls back the tracked
entry of any other key. -/
theorem claim_C6_order_independent :
    (∀ (cfg : GuardrailConfig) (s s2 : SysState) (calls : List (Nat × String × String)),
      (calls.map (fun c => (c.2.1, c.2.2))).Perm required_changes →
      run_config_calls cfg s "EVSE003" calls = some s2 →
      "EVSE003" ∈ s2.store.resolved_diagnostics) ∧
    (∀ (cfg : GuardrailConfig) (k v : String), (k, v) ∈ required_changes →
      ∀ (calls : List (Nat × String × String)) (s s2 : SysState),
        (∀ c ∈ calls, c.2.1 = k → ¬ c.2.2 = v) →
        ¬ alookup (dmap s) k = some v →
        "EVSE003" ∉ s.store.resolved_diagnostics →
        run_config_calls cfg s "EVSE003" calls = some s2 →
        "EVSE003" ∉ s2.store.resolved_diagnostics ∧ ¬ alookup (dmap s2) k = some v) ∧
    (∀ (cfg : GuardrailConfig) (s : SysState) (key value : String) (now : Nat)
        (m k2 : String),
      (change_configuration cfg s "EVSE003" key value now).response = .ok m →
      ¬ key = k2 →
      alookup (dmap (change_configuration cfg s "EVSE003" key value now).sys) k2 =
        alookup (dmap s) k2) := by
  refine ⟨?_, ?_, ?_⟩
  · intro cfg s s2 calls hperm hrun
    have hkeysperm : List.Perm ((calls.map (fun c => (c.2.1, c.2.2))).map Prod.fst)
        (required_changes.map Prod.fst) := hperm.map Prod.fst
    have htrackedeq : required_changes.map Prod.fst = diagnostic_tracked_keys := by decide
    have hall : ∀ c ∈ calls, c.2.1 ∈ diagnostic_tracked_keys := by
      intro c hc
      have h1 : (c.2.1, c.2.2) ∈ calls.map (fun c2 => (c2.2.1, c2.2.2)) :=
        List.mem_map.mpr ⟨c, hc, rfl⟩
      have h2 : (c.2.1, c.2.2) ∈ required_changes := hperm.mem_iff.mp h1
      rw [← htrackedeq]
      exact List.mem_map.mpr ⟨(c.2.1, c.2.2), h2, rfl⟩
    have hmain := run_calls_tracked cfg calls s s2 hall hrun
    have hnd : ((calls.map (fun c => (c.2.1, c.2.2))).map Prod.fst).Nodup := by
      rw [hkeysperm.nodup_iff]
      decide
    have hne : calls ≠ [] := by
      intro hnil
      have := hperm.length_eq
      rw [hnil] at this
      simp [required_changes] at this
    apply hmain.2 hne
    unfold required_check
    rw [List.all_eq_true]
    intro p hp
    have hpc : p ∈ calls.map (fun c => (c.2.1, c.2.2)) := hperm.mem_iff.mpr hp
    have := foldl_aset_lookup_of_mem (calls.map (fun c => (c.2.1, c.2.2)))
      (dmap s) p.1 p.2 hnd (by simpa using hpc)
    rw [hmain.1]
    simpa using this
  · intro cfg k v hkv calls s s2 hall hbad hres hrun
    exact run_calls_wrong_value cfg k v hkv calls s s2 hall hbad hres hrun
  · intro cfg s key value now m k2 ho hne
    by_cases hk : key ∈ diagnostic_tracked_keys
    · have hstep := cc_ok_step_tracked cfg s key value now m ho hk
      rw [hstep.1]
      exact alookup_aset_ne _ _ _ _ hne
    · have hstep := cc_ok_step_untracked cfg s key value now m ho hk
      rw [hstep.1]

/-- Witness for C6 at a concrete input: the three required pairs applied in
reverse order from a fresh state resolve EVSE003. -/
theorem claim_C6_witness :
    "EVSE003" ∈ ((run_config_calls defaultGuardrailConfig (baseState [("EVSE003", 3)]) "EVSE003"
      [(0, "MaxChargingProfilesInstalled", "1"),
       (1, "ChargingScheduleMaxPeriods", "100"),
       (2, "ChargingProfileMaxStackLevel", "1")]).getD
        (baseState [("EVSE003", 3)])).store.resolved_diagnostics :=
  claim_C6_order_independent.1 defaultGuardrailConfig (baseState [("EVSE003", 3)])
    ((run_config_calls defaultGuardrailConfig (baseState [("EVSE003", 3)]) "EVSE003"
      [(0, "MaxChargingProfilesInstalled", "1"),
       (1, "ChargingScheduleMaxPeriods", "100"),
       (2, "ChargingProfileMaxStackLevel", "1")]).getD (baseState [("EVSE003", 3)]))
    [(0, "MaxChargingProfilesInstalled", "1"),
     (1, "ChargingScheduleMaxPeriods", "100"),
     (2, "ChargingProfileMaxStackLevel", "1")]
    (by decide) (by decide)

end Voice4EVs
